import Mathlib

/-!
Shallow embedding of the idempotent balance-crediting core of the payment
backend.  The repository holds several near-duplicate Express servers; the
crediting logic of each route is translated here as a pure function from the
inbound (already provider-verified) payload and the target user document to the
updated user document and the HTTP-level outcome.

Sources embedded:
  * src/server.js, first variant: GET /paystack/verify/:reference and
    POST /api/waafi/callback (identical logic appears in src/unnamed/part_003);
  * src/unnamed/part_000: GET /paystack/verify/:reference,
    POST /stripe/verify/:intentId, POST /api/waafi/callback;
  * src/unnamed/part_001: POST /stripe/verify/:intentId and
    POST /api/waafi/callback (same crediting logic as part_000 waafi).

Modelling conventions: JavaScript numbers are either NaN or an exact value
(a rational - the arithmetic performed by these routes on the values at issue
is exact); timestamps written by serverTimestamp or new Date are an opaque
Nat parameter "now"; the Firestore document store is represented by the single
user document each route touches, plus - for the server.js paystack route -
the users/.../paymentHistory subcollection its duplicate check queries.
-/

namespace Backend

/-- A JavaScript number: NaN or an exact numeric value. -/
inductive JsNum where
  | nan : JsNum
  | num : ℚ → JsNum
deriving DecidableEq, Repr

/-- JS addition on numbers: NaN absorbs. -/
def JsNum.add : JsNum → JsNum → JsNum
  | JsNum.num a, JsNum.num b => JsNum.num (a + b)
  | _, _ => JsNum.nan

/-- The isNaN test. -/
def JsNum.isNaN : JsNum → Bool
  | JsNum.nan => true
  | JsNum.num _ => false

/-- The JS comparison "x <= 0" (false on NaN). -/
def JsNum.le0 : JsNum → Bool
  | JsNum.nan => false
  | JsNum.num q => decide (q ≤ 0)

/-- JS division by 100 as used for "amount / 100" (cents to whole units). -/
def JsNum.div100 : JsNum → JsNum
  | JsNum.nan => JsNum.nan
  | JsNum.num q => JsNum.num (q / 100)

/-- Truncation toward zero, as JS parseInt performs on a decimal numeral. -/
def jsTrunc (q : ℚ) : ℤ := q.num.tdiv q.den

/-- JS parseInt applied to a value that is already a number
(parseInt stringifies it and reparses the leading integer part,
which truncates toward zero; NaN stays NaN). -/
def JsNum.parseInt : JsNum → JsNum
  | JsNum.nan => JsNum.nan
  | JsNum.num q => JsNum.num (jsTrunc q)

/-- Value of a run of decimal digit characters. -/
def jsDigitsVal (ds : List Char) : ℕ :=
  ds.foldl (fun n c => 10 * n + (c.toNat - 48)) 0

/-- The signed-digits step of parseInt: the longest leading run of decimal
digits, NaN when it is empty. -/
def jsIntCore (sign : ℤ) (rest : List Char) : JsNum :=
  let ds := rest.takeWhile Char.isDigit
  if ds.isEmpty then JsNum.nan
  else JsNum.num ((sign * (jsDigitsVal ds : ℤ) : ℤ) : ℚ)

/-- JS parseInt applied to a string: skip spaces, optional sign, then the
longest leading run of decimal digits; no digits gives NaN. -/
def jsParseIntStr (s : String) : JsNum :=
  match s.toList.dropWhile (fun c => c == ' ') with
  | '-' :: rest => jsIntCore (-1) rest
  | '+' :: rest => jsIntCore 1 rest
  | rest => jsIntCore 1 rest

/-- ASCII uppercasing, as String.prototype.toUpperCase acts on the
status strings compared by the code. -/
def asciiUpper (s : String) : String := String.mk (s.data.map Char.toUpper)

/-- Truthiness test for an optional string field: absent or empty is falsy. -/
def jsFalsyStr : Option String → Bool
  | none => true
  | some s => s == ""

/-- The JS idiom "x || d" for an optional string field. -/
def jsOrElse (o : Option String) (d : String) : String :=
  match o with
  | none => d
  | some s => if s == "" then d else s

/-- One entry of a paymentHistory array.  Fields carried by every variant are
kept; purely informational provider fields (ip address, card type, msisdn,
gatewayTransactionId and the like) are omitted.  The server.js waafi record
names its gateway field "method"; it is mapped onto `gateway` here.  Variants
that write no packageName are embedded with packageName empty. -/
structure PaymentRecord where
  gateway : String
  reference : String
  coins : JsNum
  amount : JsNum
  status : String
  packageName : String
  timestamp : Nat
deriving DecidableEq, Repr

/-- A users/{id} document, restricted to the fields the crediting core reads
or writes.  `coins` is optional because the field may be absent on a document
created outside this core. -/
structure UserDoc where
  uid : String
  coins : Option JsNum
  paymentHistory : List PaymentRecord
deriving DecidableEq, Repr

/-- The read "snap.data().coins || 0": absent, NaN and 0 all read as 0
(NaN and 0 are falsy). -/
def readCoins : Option JsNum → JsNum
  | some (JsNum.num q) => JsNum.num q
  | _ => JsNum.num 0

/-- Firestore FieldValue.arrayUnion with a single element: appends it
unless an identical element is already present. -/
def arrayUnion (l : List PaymentRecord) (r : PaymentRecord) : List PaymentRecord :=
  if r ∈ l then l else l ++ [r]

/-- Sum of the coins fields of a history. -/
def sumCoins (l : List PaymentRecord) : JsNum :=
  l.foldr (fun r acc => JsNum.add r.coins acc) (JsNum.num 0)

/-- History of the target user (empty when the document is absent). -/
def historyOf : Option UserDoc → List PaymentRecord
  | none => []
  | some d => d.paymentHistory

/-- Balance of the target user as the code reads it (0 when absent). -/
def balanceOf : Option UserDoc → JsNum
  | none => JsNum.num 0
  | some d => readCoins d.coins

/-! ### GET /paystack/verify/:reference (src/server.js, first variant)

The Paystack metadata attached to the verified transaction.  The coins field
is a JS value: `none` models null or undefined (the "metadata.coins == null"
test); `some v` models any other value through its Number coercion, so a
non-numeric string is `some JsNum.nan`. -/
structure PaystackMeta where
  userId : Option String
  coins : Option JsNum
  packageName : Option String
deriving DecidableEq, Repr

/-- The relevant part of the Paystack verify response: response.data.status,
response.data.data.status, the verified transaction reference, the amount in
cents, and the metadata. -/
structure PaystackResp where
  okStatus : Bool
  dataStatus : String
  reference : String
  amount : JsNum
  metadata : Option PaystackMeta
deriving DecidableEq, Repr

/-- The distinct responses of the server.js paystack verify route.  A fresh
success answers with the provider payload plus the message "Payment verified
and coins credited."; the duplicate branch answers with "Transaction already
processed." and, like the fresh success, reports no balance. -/
inductive PaystackOutcome where
  | notSuccess
  | missingMetadata
  | invalidCoins
  | alreadyProcessed
  | userNotFound
  | credited
deriving DecidableEq, Repr

/-- The paymentData object built inside the server.js paystack transaction. -/
def paystackRecord (meta : PaystackMeta) (resp : PaystackResp) (coinsToAdd : JsNum)
    (now : Nat) : PaymentRecord :=
  { gateway := "paystack"
    reference := resp.reference
    coins := coinsToAdd
    amount := resp.amount.div100
    status := "success"
    packageName := jsOrElse meta.packageName "N/A"
    timestamp := now }

/-- The duplicate check the route awaits before its transaction: a query of
the users/userId/paymentHistory SUBCOLLECTION for a document whose reference
field equals the verified reference.  No route of the repository ever writes
that subcollection; every applier appends to the paymentHistory ARRAY FIELD
of the user document instead. -/
def paystackDupCheck (reference : String) (sub : List PaymentRecord) : Bool :=
  sub.any (fun r => r.reference == reference)

/-- The body of db.runTransaction in the server.js paystack route: throws
(rolling the transaction back) when the user document is absent, otherwise
adds the coins to "coins || 0" and arrayUnions the payment record. -/
def paystackTxn (meta : PaystackMeta) (resp : PaystackResp) (coinsToAdd : JsNum)
    (now : Nat) : Option UserDoc → Option UserDoc × PaystackOutcome
  | none => (none, PaystackOutcome.userNotFound)
  | some d =>
      (some { d with
                coins := some ((readCoins d.coins).add coinsToAdd)
                paymentHistory :=
                  arrayUnion d.paymentHistory (paystackRecord meta resp coinsToAdd now) },
       PaystackOutcome.credited)

/-- GET /paystack/verify/:reference of src/server.js (first variant), after
the provider call: status gate, metadata gate, Number coercion gate, the
subcollection duplicate check, then the transaction. -/
def paystackVerify (resp : PaystackResp) (sub : List PaymentRecord)
    (u : Option UserDoc) (now : Nat) : Option UserDoc × PaystackOutcome :=
  if resp.okStatus && resp.dataStatus == "success" then
    match resp.metadata with
    | none => (u, PaystackOutcome.missingMetadata)
    | some meta =>
        if jsFalsyStr meta.userId || meta.coins.isNone then
          (u, PaystackOutcome.missingMetadata)
        else
          let coinsToAdd := meta.coins.getD JsNum.nan
          if coinsToAdd.isNaN || coinsToAdd.le0 then
            (u, PaystackOutcome.invalidCoins)
          else if paystackDupCheck resp.reference sub then
            (u, PaystackOutcome.alreadyProcessed)
          else
            paystackTxn meta resp coinsToAdd now u
  else
    (u, PaystackOutcome.notSuccess)

/-- Two deliveries of the same verified Paystack transaction racing each
other.  The duplicate check is awaited before db.runTransaction, so the
schedule in which both checks run before either transaction commits is
admissible; the store serializes the two transactions.  Because the checked
subcollection is never written, each check observes the same (initial)
subcollection whether or not the other transaction has committed, so this
definition also covers the purely sequential redelivery. -/
def paystackVerifyPair (resp : PaystackResp) (sub : List PaymentRecord)
    (u : Option UserDoc) (now₁ now₂ : Nat) :
    Option UserDoc × PaystackOutcome × PaystackOutcome :=
  let r₁ := paystackVerify resp sub u now₁
  let r₂ := paystackVerify resp sub r₁.1 now₂
  (r₂.1, r₁.2, r₂.2)

/-! ### POST /api/waafi/callback (src/server.js, first variant; identical in
src/unnamed/part_003) -/

/-- The internalMetadata parsed from the customReference the callback carries. -/
structure WaafiMeta where
  userId : Option String
  coins : Option JsNum
  originalAmountKES : JsNum
  packageName : String
  internalTxId : Option String
deriving DecidableEq, Repr

/-- The waafi callback request: the signature header, the exact string the
HMAC is computed over (JSON.stringify of the body), and the destructured body
fields.  customReference is `none` when the field is absent or falsy,
`some none` when JSON.parse of it throws, and `some (some meta)` otherwise. -/
structure WaafiReq where
  sigHeader : Option String
  payloadStr : String
  status : String
  transactionId : String
  amountPaid : Option JsNum
  currency : String
  customReference : Option (Option WaafiMeta)
deriving DecidableEq, Repr

/-- The distinct responses of the server.js waafi callback. -/
inductive WaafiOutcome where
  | missingSigOrSecret
  | invalidSignature
  | incompleteData
  | invalidFormat
  | incompleteMetadata
  | invalidCoins
  | userNotFound
  | notSuccessful
  | credited
deriving DecidableEq, Repr

/-- The paymentRecord built inside the waafi transaction.  The source names
the gateway field "method"; gatewayTransactionId, currency and the raw
gatewayResponseSummary are informational and omitted. -/
def waafiRecord (meta : WaafiMeta) (coinsToAdd : JsNum) (now : Nat) : PaymentRecord :=
  { gateway := "waafi"
    reference := meta.internalTxId.getD ""
    coins := coinsToAdd
    amount := meta.originalAmountKES
    status := "success"
    packageName := meta.packageName
    timestamp := now }

/-- The body of db.runTransaction in the server.js waafi callback: throws
(rolling the transaction back) when the user document is absent, otherwise
adds the coins to "coins || 0" and arrayUnions the payment record. -/
def waafiTxn (meta : WaafiMeta) (coinsToAdd : JsNum) (now : Nat) :
    Option UserDoc → Option UserDoc × WaafiOutcome
  | none => (none, WaafiOutcome.userNotFound)
  | some d =>
      (some { d with
                coins := some ((readCoins d.coins).add coinsToAdd)
                paymentHistory :=
                  arrayUnion d.paymentHistory (waafiRecord meta coinsToAdd now) },
       WaafiOutcome.credited)

/-- POST /api/waafi/callback of src/server.js.  `hmac key payload` stands for
the hex digest crypto.createHmac("sha256", key).update(payload).digest("hex"),
an external primitive passed in as an oracle; `secret` is the
WAAFI_WEBHOOK_SECRET environment variable.  Validation order follows the
source: signature gates, essential-field gate, customReference parse, metadata
gate, parseInt gate, and only then the status test, which uppercases the
reported status before comparing it with "SUCCESS". -/
def waafiCallback (hmac : String → String → String) (secret : Option String)
    (req : WaafiReq) (u : Option UserDoc) (now : Nat) :
    Option UserDoc × WaafiOutcome :=
  if jsFalsyStr req.sigHeader || jsFalsyStr secret then
    (u, WaafiOutcome.missingSigOrSecret)
  else if req.sigHeader.getD "" != hmac (secret.getD "") req.payloadStr then
    (u, WaafiOutcome.invalidSignature)
  else if req.status == "" || req.transactionId == "" || req.amountPaid.isNone
      || req.currency == "" || req.customReference.isNone then
    (u, WaafiOutcome.incompleteData)
  else
    match req.customReference with
    | none => (u, WaafiOutcome.incompleteData)
    | some none => (u, WaafiOutcome.invalidFormat)
    | some (some meta) =>
        if jsFalsyStr meta.userId || meta.coins.isNone || jsFalsyStr meta.internalTxId then
          (u, WaafiOutcome.incompleteMetadata)
        else
          if ((meta.coins.getD JsNum.nan).parseInt).isNaN
              || ((meta.coins.getD JsNum.nan).parseInt).le0 then
            (u, WaafiOutcome.invalidCoins)
          else if asciiUpper req.status == "SUCCESS" then
            waafiTxn meta ((meta.coins.getD JsNum.nan).parseInt) now u
          else
            (u, WaafiOutcome.notSuccessful)

/-! ### POST /api/waafi/callback (src/unnamed/part_000 and part_001, identical
crediting logic) -/

/-- The waafiResult.params object of the part_000 and part_001 callback. -/
structure WaafiParams where
  state : String
  invoiceId : Option String
  transactionId : String
  referenceId : String
  txAmount : JsNum
deriving DecidableEq, Repr

/-- The responses of the part_000 and part_001 waafi callback. -/
inductive WaafiV1Outcome where
  | notApproved
  | invalidData
  | credited
deriving DecidableEq, Repr

/-- The payment object of the part_000 and part_001 waafi callback: coins and
amount are both the parsed txAmount; no packageName is written. -/
def waafiV1Record (p : WaafiParams) (coins : JsNum) (now : Nat) : PaymentRecord :=
  { gateway := "waafi"
    reference := p.referenceId
    coins := coins
    amount := coins
    status := "success"
    packageName := ""
    timestamp := now }

/-- The body of db.runTransaction in the part_000 and part_001 waafi callback:
creates the user document when absent, credits and arrayUnions otherwise. -/
def waafiV1Txn (p : WaafiParams) (coins : JsNum) (now : Nat) :
    Option UserDoc → Option UserDoc × WaafiV1Outcome
  | none =>
      (some { uid := p.invoiceId.getD ""
              coins := some coins
              paymentHistory := [waafiV1Record p coins now] },
       WaafiV1Outcome.credited)
  | some d =>
      (some { d with
                coins := some ((readCoins d.coins).add coins)
                paymentHistory :=
                  arrayUnion d.paymentHistory (waafiV1Record p coins now) },
       WaafiV1Outcome.credited)

/-- POST /api/waafi/callback of part_000 and part_001: requires params with
state exactly "APPROVED", takes coins as parseInt of txAmount, rejects only a
falsy invoiceId or NaN coins, and runs the transaction. -/
def waafiCallbackV1 (params : Option WaafiParams) (u : Option UserDoc) (now : Nat) :
    Option UserDoc × WaafiV1Outcome :=
  match params with
  | none => (u, WaafiV1Outcome.notApproved)
  | some p =>
      if p.state != "APPROVED" then (u, WaafiV1Outcome.notApproved)
      else
        if jsFalsyStr p.invoiceId || (p.txAmount.parseInt).isNaN then
          (u, WaafiV1Outcome.invalidData)
        else
          waafiV1Txn p (p.txAmount.parseInt) now u

/-! ### POST /stripe/verify/:intentId (src/unnamed/part_000; the same route
with the same read-then-update shape but an extra history arrayUnion appears
in src/unnamed/part_002) -/

/-- The retrieved Stripe payment intent: its status, amount in cents, id, and
the metadata strings set at create-intent time (coins is a string there by
construction, coins.toString()). -/
structure StripeIntent where
  status : String
  amount : JsNum
  id : String
  userId : Option String
  coins : Option String
  packageName : String
deriving DecidableEq, Repr

/-- The responses of the part_000 stripe verify route; ok carries the
newBalance the route returns. -/
inductive StripeV0Outcome where
  | notSucceeded
  | missingMetadata
  | userNotFound
  | ok (newBalance : JsNum)
deriving DecidableEq, Repr

/-- POST /stripe/verify/:intentId of part_000: requires status exactly
"succeeded" and truthy userId and coins metadata, 404s when the user document
is absent, then a plain read-then-update of the coins field - OUTSIDE any
transaction and WITHOUT appending a payment record to the history. -/
def stripeVerifyV0 (intent : StripeIntent) (u : Option UserDoc) :
    Option UserDoc × StripeV0Outcome :=
  if intent.status != "succeeded" then (u, StripeV0Outcome.notSucceeded)
  else if jsFalsyStr intent.userId || jsFalsyStr intent.coins then
    (u, StripeV0Outcome.missingMetadata)
  else
    match u with
    | none => (none, StripeV0Outcome.userNotFound)
    | some d =>
        (some { d with
                  coins := some ((readCoins d.coins).add (jsParseIntStr (intent.coins.getD ""))) },
         StripeV0Outcome.ok ((readCoins d.coins).add (jsParseIntStr (intent.coins.getD ""))))

/-! ### POST /stripe/verify/:intentId (src/unnamed/part_001) -/

/-- The responses of the part_001 stripe verify route; ok carries the
coinsToAdd value the route reports. -/
inductive StripeV1Outcome where
  | notCompleted
  | ok (coinsAdded : JsNum)
deriving DecidableEq, Repr

/-- The paymentData object of the part_001 stripe transaction. -/
def stripeV1Record (intentId : String) (intentAmount coinsToAdd : JsNum)
    (now : Nat) : PaymentRecord :=
  { gateway := "stripe"
    reference := intentId
    coins := coinsToAdd
    amount := intentAmount.div100
    status := "success"
    packageName := ""
    timestamp := now }

/-- The body of db.runTransaction in the part_001 stripe verify:
prev is "snap.exists ? snap.data().coins || 0 : 0" (that is, balanceOf) and
newBalance = prev + coinsToAdd; creates the document when absent,
credits and arrayUnions otherwise. -/
def stripeV1Txn (intentId : String) (intentAmount coinsToAdd : JsNum)
    (userId : String) (now : Nat) : Option UserDoc → Option UserDoc × StripeV1Outcome
  | none =>
      (some { uid := userId
              coins := some ((JsNum.num 0).add coinsToAdd)
              paymentHistory := [stripeV1Record intentId intentAmount coinsToAdd now] },
       StripeV1Outcome.ok coinsToAdd)
  | some d =>
      (some { d with
                coins := some ((readCoins d.coins).add coinsToAdd)
                paymentHistory :=
                  arrayUnion d.paymentHistory
                    (stripeV1Record intentId intentAmount coinsToAdd now) },
       StripeV1Outcome.ok coinsToAdd)

/-- POST /stripe/verify/:intentId of part_001: requires status exactly
"succeeded", destructures userId and coins from the metadata without further
validation (both are taken as present here; an absent userId would make the
Firestore SDK itself throw), and runs the transaction with
coinsToAdd = parseInt coins. -/
def stripeVerifyV1 (intentId : String) (status : String) (intentAmount : JsNum)
    (userId coins : String) (u : Option UserDoc) (now : Nat) :
    Option UserDoc × StripeV1Outcome :=
  if status != "succeeded" then (u, StripeV1Outcome.notCompleted)
  else stripeV1Txn intentId intentAmount (jsParseIntStr coins) userId now u

/-! ### GET /paystack/verify/:reference (src/unnamed/part_000; the second
variant of src/server.js and src/unnamed/part_003 create the user document the
same way) -/

/-- The relevant part of the part_000 Paystack verify response.  That variant
tests metadata values for truthiness and parses coins with parseInt, so its
metadata fields are modelled as the strings carried in the JSON. -/
structure PaystackV0Resp where
  okStatus : Bool
  dataStatus : String
  amount : JsNum
  userId : Option String
  coins : Option String
  packageName : Option String
deriving DecidableEq, Repr

/-- The responses of the part_000 paystack verify route. -/
inductive PaystackV0Outcome where
  | notSuccessful
  | missingMetadata
  | credited
deriving DecidableEq, Repr

/-- The paymentData object of the part_000 paystack transaction. -/
def paystackV0Record (reference : String) (amount coins : JsNum)
    (packageName : Option String) (now : Nat) : PaymentRecord :=
  { gateway := "paystack"
    reference := reference
    coins := coins
    amount := amount.div100
    status := "success"
    packageName := jsOrElse packageName "N/A"
    timestamp := now }

/-- The body of db.runTransaction in the part_000 paystack verify: creates
the user document with the parsed coins and a singleton history when absent,
credits plus arrayUnions otherwise. -/
def paystackV0Txn (reference : String) (resp : PaystackV0Resp) (coins : JsNum)
    (now : Nat) : Option UserDoc → Option UserDoc × PaystackV0Outcome
  | none =>
      (some { uid := resp.userId.getD ""
              coins := some coins
              paymentHistory := [paystackV0Record reference resp.amount coins resp.packageName now] },
       PaystackV0Outcome.credited)
  | some d =>
      (some { d with
                coins := some ((readCoins d.coins).add coins)
                paymentHistory :=
                  arrayUnion d.paymentHistory
                    (paystackV0Record reference resp.amount coins resp.packageName now) },
       PaystackV0Outcome.credited)

/-- GET /paystack/verify/:reference of part_000: status gate, truthiness gate
on userId and coins, parseInt (with no NaN or sign check), then the
transaction.  No duplicate check of any kind is performed. -/
def paystackVerifyV0 (reference : String) (resp : PaystackV0Resp)
    (u : Option UserDoc) (now : Nat) : Option UserDoc × PaystackV0Outcome :=
  if !resp.okStatus || resp.dataStatus != "success" then
    (u, PaystackV0Outcome.notSuccessful)
  else if jsFalsyStr resp.userId || jsFalsyStr resp.coins then
    (u, PaystackV0Outcome.missingMetadata)
  else
    paystackV0Txn reference resp (jsParseIntStr (resp.coins.getD "")) now u

/-! ### Basic lemmas about the modelled primitives -/

theorem JsNum.zero_add (x : JsNum) : (JsNum.num 0).add x = x := by
  cases x <;> simp [JsNum.add]

theorem JsNum.add_zero (x : JsNum) : x.add (JsNum.num 0) = x := by
  cases x <;> simp [JsNum.add]

theorem JsNum.add_assoc (x y z : JsNum) : (x.add y).add z = x.add (y.add z) := by
  cases x <;> cases y <;> cases z <;> simp [JsNum.add] <;> ring

theorem readCoins_num (o : Option JsNum) : ∃ q : ℚ, readCoins o = JsNum.num q := by
  match o with
  | none => exact ⟨0, rfl⟩
  | some JsNum.nan => exact ⟨0, rfl⟩
  | some (JsNum.num q) => exact ⟨q, rfl⟩

theorem arrayUnion_of_not_mem {l : List PaymentRecord} {r : PaymentRecord}
    (h : r ∉ l) : arrayUnion l r = l ++ [r] := by
  simp [arrayUnion, h]

theorem mem_of_mem_arrayUnion {l : List PaymentRecord} {r s : PaymentRecord}
    (h : s ∈ arrayUnion l r) : s ∈ l ∨ s = r := by
  by_cases hr : r ∈ l
  · simp [arrayUnion, hr] at h; exact Or.inl h
  · simp [arrayUnion, hr] at h
    rcases h with h | h
    · exact Or.inl h
    · exact Or.inr h

theorem not_mem_of_timestamp {l : List PaymentRecord} {r : PaymentRecord}
    (h : ∀ s ∈ l, s.timestamp ≠ r.timestamp) : r ∉ l := by
  intro hmem
  exact h r hmem rfl

theorem sumCoins_append (l₁ l₂ : List PaymentRecord) :
    sumCoins (l₁ ++ l₂) = (sumCoins l₁).add (sumCoins l₂) := by
  induction l₁ with
  | nil => simp [sumCoins, JsNum.zero_add]
  | cons r l ih =>
      simp only [List.cons_append, sumCoins, List.foldr_cons] at *
      rw [ih, JsNum.add_assoc]

theorem sumCoins_single (r : PaymentRecord) : sumCoins [r] = r.coins := by
  simp [sumCoins, JsNum.add_zero]

theorem jsIntCore_den {sign : ℤ} {rest : List Char} {q : ℚ}
    (h : jsIntCore sign rest = JsNum.num q) : q.den = 1 := by
  unfold jsIntCore at h
  by_cases he : (rest.takeWhile Char.isDigit).isEmpty
  · simp [he] at h
  · simp only [he, Bool.false_eq_true, if_false, JsNum.num.injEq] at h
    rw [← h]
    exact Rat.den_intCast _

/-- An integer-string parse never yields a fractional value. -/
theorem jsParseIntStr_den {s : String} {q : ℚ} (h : jsParseIntStr s = JsNum.num q) :
    q.den = 1 := by
  unfold jsParseIntStr at h
  split at h <;> exact jsIntCore_den h

/-- Truncation never yields a fractional value. -/
theorem JsNum.parseInt_den {v : JsNum} {q : ℚ} (h : v.parseInt = JsNum.num q) :
    q.den = 1 := by
  cases v with
  | nan => simp [JsNum.parseInt] at h
  | num r =>
      simp [JsNum.parseInt] at h
      rw [← h]
      simp [Rat.den_intCast]

/-! ### Branch analysis: every route leaves the store untouched unless it
reaches its crediting branch -/

theorem paystackVerify_fst_eq_or (resp : PaystackResp) (sub : List PaymentRecord)
    (u : Option UserDoc) (now : Nat) :
    (paystackVerify resp sub u now).1 = u ∨
      (paystackVerify resp sub u now).2 = PaystackOutcome.credited := by
  simp only [paystackVerify, paystackTxn]
  repeat (any_goals split)
  all_goals simp_all

theorem waafiCallback_fst_eq_or (hmac : String → String → String)
    (secret : Option String) (req : WaafiReq) (u : Option UserDoc) (now : Nat) :
    (waafiCallback hmac secret req u now).1 = u ∨
      (waafiCallback hmac secret req u now).2 = WaafiOutcome.credited := by
  simp only [waafiCallback, waafiTxn]
  repeat (any_goals split)
  all_goals simp_all

theorem waafiCallbackV1_fst_eq_or (params : Option WaafiParams)
    (u : Option UserDoc) (now : Nat) :
    (waafiCallbackV1 params u now).1 = u ∨
      (waafiCallbackV1 params u now).2 = WaafiV1Outcome.credited := by
  simp only [waafiCallbackV1, waafiV1Txn]
  repeat (any_goals split)
  all_goals simp_all

theorem stripeVerifyV0_fst_eq_or (intent : StripeIntent) (u : Option UserDoc) :
    (stripeVerifyV0 intent u).1 = u ∨
      ∃ k, (stripeVerifyV0 intent u).2 = StripeV0Outcome.ok k := by
  simp only [stripeVerifyV0]
  repeat (any_goals split)
  all_goals simp_all

theorem stripeVerifyV1_fst_eq_or (intentId status : String) (intentAmount : JsNum)
    (userId coins : String) (u : Option UserDoc) (now : Nat) :
    (stripeVerifyV1 intentId status intentAmount userId coins u now).1 = u ∨
      ∃ k, (stripeVerifyV1 intentId status intentAmount userId coins u now).2 =
        StripeV1Outcome.ok k := by
  simp only [stripeVerifyV1, stripeV1Txn]
  repeat (any_goals split)
  all_goals simp_all

theorem paystackVerifyV0_fst_eq_or (reference : String) (resp : PaystackV0Resp)
    (u : Option UserDoc) (now : Nat) :
    (paystackVerifyV0 reference resp u now).1 = u ∨
      (paystackVerifyV0 reference resp u now).2 = PaystackV0Outcome.credited := by
  simp only [paystackVerifyV0, paystackV0Txn]
  repeat (any_goals split)
  all_goals simp_all

/-! ### Branch analysis: no route ever deletes a present user document -/

theorem paystackVerify_isSome (resp : PaystackResp) (sub : List PaymentRecord)
    (u : Option UserDoc) (now : Nat) (h : u.isSome = true) :
    (paystackVerify resp sub u now).1.isSome = true := by
  simp only [paystackVerify, paystackTxn]
  repeat (any_goals split)
  all_goals simp_all

theorem waafiCallback_isSome (hmac : String → String → String)
    (secret : Option String) (req : WaafiReq) (u : Option UserDoc) (now : Nat)
    (h : u.isSome = true) :
    (waafiCallback hmac secret req u now).1.isSome = true := by
  simp only [waafiCallback, waafiTxn]
  repeat (any_goals split)
  all_goals simp_all

theorem waafiCallbackV1_isSome (params : Option WaafiParams) (u : Option UserDoc)
    (now : Nat) (h : u.isSome = true) :
    (waafiCallbackV1 params u now).1.isSome = true := by
  simp only [waafiCallbackV1, waafiV1Txn]
  repeat (any_goals split)
  all_goals simp_all

theorem stripeVerifyV0_isSome (intent : StripeIntent) (u : Option UserDoc)
    (h : u.isSome = true) : (stripeVerifyV0 intent u).1.isSome = true := by
  simp only [stripeVerifyV0]
  repeat (any_goals split)
  all_goals simp_all

theorem stripeVerifyV1_isSome (intentId status : String) (intentAmount : JsNum)
    (userId coins : String) (u : Option UserDoc) (now : Nat) (h : u.isSome = true) :
    (stripeVerifyV1 intentId status intentAmount userId coins u now).1.isSome = true := by
  simp only [stripeVerifyV1, stripeV1Txn]
  repeat (any_goals split)
  all_goals simp_all

theorem paystackVerifyV0_isSome (reference : String) (resp : PaystackV0Resp)
    (u : Option UserDoc) (now : Nat) (h : u.isSome = true) :
    (paystackVerifyV0 reference resp u now).1.isSome = true := by
  simp only [paystackVerifyV0, paystackV0Txn]
  repeat (any_goals split)
  all_goals simp_all

/-! ### Reaching the crediting branch -/

theorem le0_eq_false {c : ℚ} (hpos : 0 < c) : (JsNum.num c).le0 = false := by
  simp [JsNum.le0]
  exact hpos

theorem paystackVerify_eq_txn {resp : PaystackResp} {meta : PaystackMeta} {c : ℚ}
    (sub : List PaymentRecord) (u : Option UserDoc) (now : Nat)
    (hok : resp.okStatus = true) (hst : resp.dataStatus = "success")
    (hm : resp.metadata = some meta) (huid : jsFalsyStr meta.userId = false)
    (hc : meta.coins = some (JsNum.num c)) (hpos : 0 < c)
    (hdup : paystackDupCheck resp.reference sub = false) :
    paystackVerify resp sub u now = paystackTxn meta resp (JsNum.num c) now u := by
  simp [paystackVerify, hok, hst, hm, huid, hc, hdup, JsNum.isNaN, le0_eq_false hpos]

theorem waafiCallback_eq_txn {hmac : String → String → String}
    {secret : Option String} {req : WaafiReq} {meta : WaafiMeta} {c : ℚ}
    (u : Option UserDoc) (now : Nat)
    (h1 : jsFalsyStr req.sigHeader = false) (h2 : jsFalsyStr secret = false)
    (h3 : req.sigHeader.getD "" = hmac (secret.getD "") req.payloadStr)
    (h4 : req.status ≠ "") (h5 : req.transactionId ≠ "")
    (h6 : req.amountPaid.isNone = false) (h7 : req.currency ≠ "")
    (h8 : req.customReference = some (some meta))
    (h9 : jsFalsyStr meta.userId = false) (h10 : meta.coins.isNone = false)
    (h11 : jsFalsyStr meta.internalTxId = false)
    (h12 : (meta.coins.getD JsNum.nan).parseInt = JsNum.num c) (hpos : 0 < c)
    (h13 : asciiUpper req.status = "SUCCESS") :
    waafiCallback hmac secret req u now = waafiTxn meta (JsNum.num c) now u := by
  simp [waafiCallback, h1, h2, h3, h4, h5, h6, h7, h8, h9, h10, h11, h12, h13,
    JsNum.isNaN, le0_eq_false hpos]

theorem waafiCallbackV1_eq_txn {p : WaafiParams} (u : Option UserDoc) (now : Nat)
    (hst : p.state = "APPROVED") (hu : jsFalsyStr p.invoiceId = false)
    (hnan : (p.txAmount.parseInt).isNaN = false) :
    waafiCallbackV1 (some p) u now = waafiV1Txn p (p.txAmount.parseInt) now u := by
  simp [waafiCallbackV1, hst, hu, hnan]

theorem stripeVerifyV1_eq_txn (intentId : String) {status : String}
    (intentAmount : JsNum) (userId coins : String) (u : Option UserDoc) (now : Nat)
    (hst : status = "succeeded") :
    stripeVerifyV1 intentId status intentAmount userId coins u now =
      stripeV1Txn intentId intentAmount (jsParseIntStr coins) userId now u := by
  simp [stripeVerifyV1, hst]

theorem paystackVerifyV0_eq_txn (reference : String) {resp : PaystackV0Resp}
    (u : Option UserDoc) (now : Nat)
    (hok : resp.okStatus = true) (hst : resp.dataStatus = "success")
    (huid : jsFalsyStr resp.userId = false) (hcs : jsFalsyStr resp.coins = false) :
    paystackVerifyV0 reference resp u now =
      paystackV0Txn reference resp (jsParseIntStr (resp.coins.getD "")) now u := by
  simp [paystackVerifyV0, hok, hst, huid, hcs]

theorem stripeVerifyV0_eq_some {intent : StripeIntent} (d : UserDoc)
    (hst : intent.status = "succeeded") (huid : jsFalsyStr intent.userId = false)
    (hcs : jsFalsyStr intent.coins = false) :
    stripeVerifyV0 intent (some d) =
      (some { d with
                coins := some ((readCoins d.coins).add (jsParseIntStr (intent.coins.getD ""))) },
       StripeV0Outcome.ok ((readCoins d.coins).add (jsParseIntStr (intent.coins.getD "")))) := by
  simp [stripeVerifyV0, hst, huid, hcs]

theorem stripeVerifyV0_eq_none {intent : StripeIntent}
    (hst : intent.status = "succeeded") (huid : jsFalsyStr intent.userId = false)
    (hcs : jsFalsyStr intent.coins = false) :
    stripeVerifyV0 intent none = (none, StripeV0Outcome.userNotFound) := by
  simp [stripeVerifyV0, hst, huid, hcs]

/-! ### The conservation invariant -/

/-- The stored balance, as read by the code, equals the sum of the coins of
the payment history. -/
def Conserved (u : Option UserDoc) : Prop :=
  balanceOf u = sumCoins (historyOf u)

theorem conserved_none : Conserved none := rfl

/-- Crediting into an existing document preserves conservation, provided the
credited amount is a number and the appended record is not deduplicated away
by arrayUnion. -/
theorem conserved_update {d : UserDoc} {v : JsNum} {r : PaymentRecord}
    (hv : v.isNaN = false) (hrc : r.coins = v) (hcons : Conserved (some d))
    (hmem : r ∉ d.paymentHistory) :
    Conserved (some { d with
                        coins := some ((readCoins d.coins).add v)
                        paymentHistory := arrayUnion d.paymentHistory r }) := by
  obtain ⟨c, hcv⟩ : ∃ c : ℚ, v = JsNum.num c := by
    cases v with
    | nan => simp [JsNum.isNaN] at hv
    | num c => exact ⟨c, rfl⟩
  obtain ⟨s, hs⟩ := readCoins_num d.coins
  have hsum : sumCoins d.paymentHistory = JsNum.num s := by
    have := hcons
    simp only [Conserved, balanceOf, historyOf] at this
    rw [← this, hs]
  simp only [Conserved, balanceOf, historyOf]
  rw [hs, arrayUnion_of_not_mem hmem, sumCoins_append, sumCoins_single, hrc, hsum, hcv]
  simp [readCoins, JsNum.add]

/-- A document freshly created with the credited coins and the singleton
history is conserved, provided the credited amount is a number. -/
theorem conserved_create {v : JsNum} {r : PaymentRecord} (uid : String)
    (hv : v.isNaN = false) (hrc : r.coins = v) :
    Conserved (some { uid := uid, coins := some v, paymentHistory := [r] }) := by
  obtain ⟨c, hcv⟩ : ∃ c : ℚ, v = JsNum.num c := by
    cases v with
    | nan => simp [JsNum.isNaN] at hv
    | num c => exact ⟨c, rfl⟩
  simp only [Conserved, balanceOf, historyOf, sumCoins_single, hrc, hcv, readCoins]

theorem conserved_paystackTxn {meta : PaystackMeta} {resp : PaystackResp}
    {v : JsNum} {now : Nat} {u : Option UserDoc} (hv : v.isNaN = false)
    (hts : ∀ r ∈ historyOf u, r.timestamp ≠ now) (h : Conserved u) :
    Conserved (paystackTxn meta resp v now u).1 := by
  cases u with
  | none => exact h
  | some d =>
      simp only [paystackTxn]
      refine conserved_update hv rfl h (not_mem_of_timestamp fun s hs => ?_)
      simpa [paystackRecord] using hts s hs

theorem conserved_waafiTxn {meta : WaafiMeta} {v : JsNum} {now : Nat}
    {u : Option UserDoc} (hv : v.isNaN = false)
    (hts : ∀ r ∈ historyOf u, r.timestamp ≠ now) (h : Conserved u) :
    Conserved (waafiTxn meta v now u).1 := by
  cases u with
  | none => exact h
  | some d =>
      simp only [waafiTxn]
      refine conserved_update hv rfl h (not_mem_of_timestamp fun s hs => ?_)
      simpa [waafiRecord] using hts s hs

theorem conserved_waafiV1Txn {p : WaafiParams} {v : JsNum} {now : Nat}
    {u : Option UserDoc} (hv : v.isNaN = false)
    (hts : ∀ r ∈ historyOf u, r.timestamp ≠ now) (h : Conserved u) :
    Conserved (waafiV1Txn p v now u).1 := by
  cases u with
  | none => exact conserved_create _ hv rfl
  | some d =>
      simp only [waafiV1Txn]
      refine conserved_update hv rfl h (not_mem_of_timestamp fun s hs => ?_)
      simpa [waafiV1Record] using hts s hs

theorem conserved_stripeV1Txn {intentId : String} {intentAmount v : JsNum}
    {userId : String} {now : Nat} {u : Option UserDoc} (hv : v.isNaN = false)
    (hts : ∀ r ∈ historyOf u, r.timestamp ≠ now) (h : Conserved u) :
    Conserved (stripeV1Txn intentId intentAmount v userId now u).1 := by
  cases u with
  | none =>
      simp only [stripeV1Txn, JsNum.zero_add]
      exact conserved_create _ hv rfl
  | some d =>
      simp only [stripeV1Txn]
      refine conserved_update hv rfl h (not_mem_of_timestamp fun s hs => ?_)
      simpa [stripeV1Record] using hts s hs

theorem conserved_paystackV0Txn {reference : String} {resp : PaystackV0Resp}
    {v : JsNum} {now : Nat} {u : Option UserDoc} (hv : v.isNaN = false)
    (hts : ∀ r ∈ historyOf u, r.timestamp ≠ now) (h : Conserved u) :
    Conserved (paystackV0Txn reference resp v now u).1 := by
  cases u with
  | none => exact conserved_create _ hv rfl
  | some d =>
      simp only [paystackV0Txn]
      refine conserved_update hv rfl h (not_mem_of_timestamp fun s hs => ?_)
      simpa [paystackV0Record] using hts s hs

theorem conserved_paystackVerify (resp : PaystackResp) (sub : List PaymentRecord)
    (u : Option UserDoc) (now : Nat)
    (hts : ∀ r ∈ historyOf u, r.timestamp ≠ now) (h : Conserved u) :
    Conserved (paystackVerify resp sub u now).1 := by
  simp only [paystackVerify]
  repeat (any_goals split)
  all_goals first
    | exact h
    | exact conserved_paystackTxn (by simp_all) hts h

theorem conserved_waafiCallback (hmac : String → String → String)
    (secret : Option String) (req : WaafiReq) (u : Option UserDoc) (now : Nat)
    (hts : ∀ r ∈ historyOf u, r.timestamp ≠ now) (h : Conserved u) :
    Conserved (waafiCallback hmac secret req u now).1 := by
  simp only [waafiCallback]
  repeat (any_goals split)
  all_goals first
    | exact h
    | exact conserved_waafiTxn (by simp_all) hts h

theorem conserved_waafiCallbackV1 (params : Option WaafiParams) (u : Option UserDoc)
    (now : Nat) (hts : ∀ r ∈ historyOf u, r.timestamp ≠ now) (h : Conserved u) :
    Conserved (waafiCallbackV1 params u now).1 := by
  simp only [waafiCallbackV1]
  repeat (any_goals split)
  all_goals first
    | exact h
    | exact conserved_waafiV1Txn (by simp_all) hts h

theorem conserved_stripeVerifyV1 (intentId status : String) (intentAmount : JsNum)
    (userId coins : String) (u : Option UserDoc) (now : Nat)
    (hts : ∀ r ∈ historyOf u, r.timestamp ≠ now)
    (hnum : (jsParseIntStr coins).isNaN = false) (h : Conserved u) :
    Conserved (stripeVerifyV1 intentId status intentAmount userId coins u now).1 := by
  simp only [stripeVerifyV1]
  repeat (any_goals split)
  all_goals first
    | exact h
    | exact conserved_stripeV1Txn hnum hts h

theorem conserved_paystackVerifyV0 (reference : String) (resp : PaystackV0Resp)
    (u : Option UserDoc) (now : Nat)
    (hts : ∀ r ∈ historyOf u, r.timestamp ≠ now)
    (hnum : (jsParseIntStr (resp.coins.getD "")).isNaN = false) (h : Conserved u) :
    Conserved (paystackVerifyV0 reference resp u now).1 := by
  simp only [paystackVerifyV0]
  repeat (any_goals split)
  all_goals first
    | exact h
    | exact conserved_paystackV0Txn hnum hts h

/-- One application of one of the record-appending crediting routes of the
repository (any input whatever), under the two side conditions true of every
real execution: the write timestamp is fresh for the touched user, and - for
the two routes that parse the coin metadata without an isNaN guard - the coin
metadata is numeric. -/
inductive CreditStep : Option UserDoc → Option UserDoc → Prop where
  | paystack (resp : PaystackResp) (sub : List PaymentRecord) (u : Option UserDoc)
      (now : Nat) (hts : ∀ r ∈ historyOf u, r.timestamp ≠ now) :
      CreditStep u (paystackVerify resp sub u now).1
  | waafi (hmac : String → String → String) (secret : Option String)
      (req : WaafiReq) (u : Option UserDoc) (now : Nat)
      (hts : ∀ r ∈ historyOf u, r.timestamp ≠ now) :
      CreditStep u (waafiCallback hmac secret req u now).1
  | waafiV1 (params : Option WaafiParams) (u : Option UserDoc) (now : Nat)
      (hts : ∀ r ∈ historyOf u, r.timestamp ≠ now) :
      CreditStep u (waafiCallbackV1 params u now).1
  | stripeV1 (intentId status : String) (intentAmount : JsNum) (userId coins : String)
      (u : Option UserDoc) (now : Nat)
      (hts : ∀ r ∈ historyOf u, r.timestamp ≠ now)
      (hnum : (jsParseIntStr coins).isNaN = false) :
      CreditStep u (stripeVerifyV1 intentId status intentAmount userId coins u now).1
  | paystackV0 (reference : String) (resp : PaystackV0Resp) (u : Option UserDoc)
      (now : Nat) (hts : ∀ r ∈ historyOf u, r.timestamp ≠ now)
      (hnum : (jsParseIntStr (resp.coins.getD "")).isNaN = false) :
      CreditStep u (paystackVerifyV0 reference resp u now).1

theorem conserved_creditStep {u u' : Option UserDoc} (h : Conserved u)
    (hstep : CreditStep u u') : Conserved u' := by
  cases hstep with
  | paystack resp sub u now hts => exact conserved_paystackVerify resp sub u now hts h
  | waafi hmac secret req u now hts => exact conserved_waafiCallback hmac secret req u now hts h
  | waafiV1 params u now hts => exact conserved_waafiCallbackV1 params u now hts h
  | stripeV1 intentId status intentAmount userId coins u now hts hnum =>
      exact conserved_stripeVerifyV1 intentId status intentAmount userId coins u now hts hnum h
  | paystackV0 reference resp u now hts hnum =>
      exact conserved_paystackVerifyV0 reference resp u now hts hnum h

/-! ### Claim C1 -/

/-- A valid verified Paystack confirmation worth 50 coins for user U1. -/
def c1meta : PaystackMeta :=
  { userId := some "U1", coins := some (JsNum.num 50), packageName := some "Starter" }

def c1resp : PaystackResp :=
  { okStatus := true, dataStatus := "success", reference := "ref-1"
    amount := JsNum.num 5000, metadata := some c1meta }

def c1user : UserDoc := { uid := "U1", coins := some (JsNum.num 0), paymentHistory := [] }

/-- C1.  The crediting of the server.js paystack route is NOT idempotent: the
duplicate check queries the paymentHistory subcollection, which no applier
ever writes (the credit goes to the paymentHistory array field), so a second
delivery of the same (gateway, reference) confirmation passes the check and
credits again.  Starting from user U1 with balance 0 and the subcollection in
the state every execution of this code leaves it in (empty), two sequential
deliveries of the same reference end with balance 100 and two Payment Records
for that reference instead of balance 50 and one record. -/
theorem c1_paystack_double_credit :
    paystackVerify c1resp [] (some c1user) 1 =
      (some { uid := "U1", coins := some (JsNum.num 50)
              paymentHistory := [paystackRecord c1meta c1resp (JsNum.num 50) 1] },
       PaystackOutcome.credited) ∧
    paystackVerify c1resp [] (paystackVerify c1resp [] (some c1user) 1).1 2 =
      (some { uid := "U1", coins := some (JsNum.num 100)
              paymentHistory := [paystackRecord c1meta c1resp (JsNum.num 50) 1,
                                 paystackRecord c1meta c1resp (JsNum.num 50) 2] },
       PaystackOutcome.credited) := by
  constructor <;>
    simp +decide [paystackVerify, paystackTxn, paystackDupCheck, paystackRecord,
      c1resp, c1meta, c1user, jsFalsyStr, jsOrElse, readCoins, arrayUnion,
      JsNum.isNaN, JsNum.le0, JsNum.add, JsNum.div100]
  all_goals norm_num

/-! ### Claim C2 -/

def c2meta : PaystackMeta :=
  { userId := some "U2", coins := some (JsNum.num 30), packageName := none }

def c2resp : PaystackResp :=
  { okStatus := true, dataStatus := "success", reference := "ref-2"
    amount := JsNum.num 3000, metadata := some c2meta }

def c2user : UserDoc := { uid := "U2", coins := some (JsNum.num 5), paymentHistory := [] }

/-- C2.  The check-then-act sequence is NOT enclosed in one store transaction:
the duplicate-existence check is awaited before db.runTransaction, so in the
admissible schedule where two deliveries of the same confirmation both run
their check before either transaction commits, both pass and both credit.
Concretely, two racing deliveries of the same 30-coin confirmation to user U2
with balance 5 both report a credit and leave balance 65 with two records. -/
theorem c2_counterexample :
    paystackVerifyPair c2resp [] (some c2user) 1 2 =
      (some { uid := "U2", coins := some (JsNum.num 65)
              paymentHistory := [paystackRecord c2meta c2resp (JsNum.num 30) 1,
                                 paystackRecord c2meta c2resp (JsNum.num 30) 2] },
       PaystackOutcome.credited, PaystackOutcome.credited) := by
  simp +decide [paystackVerifyPair, paystackVerify, paystackTxn, paystackDupCheck,
    paystackRecord, c2resp, c2meta, c2user, jsFalsyStr, jsOrElse, readCoins,
    arrayUnion, JsNum.isNaN, JsNum.le0, JsNum.add, JsNum.div100]
  norm_num

/-- C2 amended.  What does hold: each transaction alone is atomic, but the
duplicate check runs outside it, so two concurrent deliveries of one valid
confirmation (same (gateway, reference)) both pass the check and both credit:
the final balance carries both credits and both records are appended. -/
theorem c2_concurrent_double_credit {resp : PaystackResp} {meta : PaystackMeta}
    {c q : ℚ} (sub : List PaymentRecord) (d : UserDoc) (now₁ now₂ : Nat)
    (hok : resp.okStatus = true) (hst : resp.dataStatus = "success")
    (hm : resp.metadata = some meta) (huid : jsFalsyStr meta.userId = false)
    (hc : meta.coins = some (JsNum.num c)) (hpos : 0 < c)
    (hdup : paystackDupCheck resp.reference sub = false)
    (hq : d.coins = some (JsNum.num q))
    (hts : ∀ r ∈ d.paymentHistory, r.timestamp ≠ now₁ ∧ r.timestamp ≠ now₂)
    (hnn : now₁ ≠ now₂) :
    paystackVerifyPair resp sub (some d) now₁ now₂ =
      (some { d with
                coins := some (JsNum.num (q + c + c))
                paymentHistory := d.paymentHistory ++
                  [paystackRecord meta resp (JsNum.num c) now₁,
                   paystackRecord meta resp (JsNum.num c) now₂] },
       PaystackOutcome.credited, PaystackOutcome.credited) := by
  have h1 := paystackVerify_eq_txn sub (some d) now₁ hok hst hm huid hc hpos hdup
  have hm1 : paystackRecord meta resp (JsNum.num c) now₁ ∉ d.paymentHistory :=
    not_mem_of_timestamp fun s hs => by simpa [paystackRecord] using (hts s hs).1
  have hm2 : paystackRecord meta resp (JsNum.num c) now₂ ∉
      d.paymentHistory ++ [paystackRecord meta resp (JsNum.num c) now₁] := by
    intro hmem
    rcases List.mem_append.mp hmem with hmem | hmem
    · exact (hts _ hmem).2 (by simp [paystackRecord])
    · simp only [List.mem_singleton] at hmem
      have htime := congrArg PaymentRecord.timestamp hmem
      simp only [paystackRecord] at htime
      exact hnn htime.symm
  have hstep1 : paystackTxn meta resp (JsNum.num c) now₁ (some d) =
      (some { d with
                coins := some (JsNum.num (q + c))
                paymentHistory := d.paymentHistory ++
                  [paystackRecord meta resp (JsNum.num c) now₁] },
       PaystackOutcome.credited) := by
    simp [paystackTxn, hq, readCoins, JsNum.add, arrayUnion_of_not_mem hm1]
  have h2 := paystackVerify_eq_txn sub
      (some { d with
                coins := some (JsNum.num (q + c))
                paymentHistory := d.paymentHistory ++
                  [paystackRecord meta resp (JsNum.num c) now₁] })
      now₂ hok hst hm huid hc hpos hdup
  have hstep2 : paystackTxn meta resp (JsNum.num c) now₂
      (some { d with
                coins := some (JsNum.num (q + c))
                paymentHistory := d.paymentHistory ++
                  [paystackRecord meta resp (JsNum.num c) now₁] }) =
      (some { d with
                coins := some (JsNum.num (q + c + c))
                paymentHistory := d.paymentHistory ++
                  [paystackRecord meta resp (JsNum.num c) now₁,
                   paystackRecord meta resp (JsNum.num c) now₂] },
       PaystackOutcome.credited) := by
    simp [paystackTxn, readCoins, JsNum.add, arrayUnion_of_not_mem hm2]
  simp only [paystackVerifyPair, h1, hstep1, h2, hstep2]

/-- Closed instance of the amended C2 theorem at a concrete confirmation. -/
theorem c2_concurrent_double_credit_witness :
    paystackVerifyPair c2resp [] (some c2user) 3 4 =
      (some { c2user with
                coins := some (JsNum.num (5 + 30 + 30))
                paymentHistory := c2user.paymentHistory ++
                  [paystackRecord c2meta c2resp (JsNum.num 30) 3,
                   paystackRecord c2meta c2resp (JsNum.num 30) 4] },
       PaystackOutcome.credited, PaystackOutcome.credited) :=
  c2_concurrent_double_credit [] c2user 3 4 rfl rfl rfl (by decide) rfl
    (by norm_num) rfl rfl (by simp [c2user]) (by decide)

/-! ### Claim C3 -/

def c3user : UserDoc := { uid := "U3", coins := some (JsNum.num 0), paymentHistory := [] }

def c3intent : StripeIntent :=
  { status := "succeeded", amount := JsNum.num 4600, id := "pi-3"
    userId := some "U3", coins := some "46", packageName := "Gold" }

/-- C3.  Conservation fails on the part_000 stripe verify route: it credits
the balance without appending any Payment Record, so a user who satisfied
balance = sum(history coins) before the credit (balance 0, empty history)
violates it afterwards (balance 46, empty history), even though the route
reported a successful 46-coin credit. -/
theorem c3_counterexample :
    Conserved (some c3user) ∧
    (stripeVerifyV0 c3intent (some c3user)).2 = StripeV0Outcome.ok (JsNum.num 46) ∧
    ¬ Conserved (stripeVerifyV0 c3intent (some c3user)).1 := by
  refine ⟨?_, ?_, ?_⟩ <;>
    simp +decide [stripeVerifyV0, c3intent, c3user, jsFalsyStr, readCoins,
      JsNum.add, jsParseIntStr, jsIntCore, jsDigitsVal, Conserved, balanceOf,
      historyOf, sumCoins]

/-- C3 amended.  Conservation does hold along any sequence of applications of
the record-appending routes (the server.js paystack and waafi routes, the
part_000/part_001 waafi callback, the part_001 stripe verify and the part_000
paystack verify), for executions with fresh write timestamps and - on the two
routes that do not guard against NaN - numeric coin metadata; the part_000
stripe verify, which credits without appending, is the route that breaks it. -/
theorem c3_conservation {u u' : Option UserDoc} (h0 : Conserved u)
    (h : Relation.ReflTransGen CreditStep u u') : Conserved u' := by
  induction h with
  | refl => exact h0
  | tail _ hstep ih => exact conserved_creditStep ih hstep

def c3params : WaafiParams :=
  { state := "APPROVED", invoiceId := some "U3b", transactionId := "t3"
    referenceId := "r3", txAmount := JsNum.num 20 }

/-- Closed instance of the conservation theorem: starting from an absent user
document and applying one waafi confirmation, the resulting document is
conserved. -/
theorem c3_conservation_witness :
    Conserved (waafiCallbackV1 (some c3params) none 1).1 :=
  c3_conservation conserved_none
    (Relation.ReflTransGen.single
      (CreditStep.waafiV1 (some c3params) none 1 (by simp [historyOf])))

/-! ### Claim C4 -/

/-- C4.  Rejection purity holds: on every embedded confirmation route, a
rejection of the NotApproved kind (notSuccess, notSuccessful, notApproved,
notSucceeded), of the MissingMetadata kind (missingMetadata, incompleteData,
invalidFormat, incompleteMetadata, invalidCoins, invalidData) or of the
InvalidSignature kind (missingSigOrSecret, invalidSignature) leaves the user
document exactly as it was: no Payment Record is created and no balance
changes. -/
theorem c4_rejection_purity :
    (∀ (resp : PaystackResp) (sub : List PaymentRecord) (u : Option UserDoc) (now : Nat),
      ((paystackVerify resp sub u now).2 = PaystackOutcome.notSuccess ∨
       (paystackVerify resp sub u now).2 = PaystackOutcome.missingMetadata ∨
       (paystackVerify resp sub u now).2 = PaystackOutcome.invalidCoins) →
      (paystackVerify resp sub u now).1 = u) ∧
    (∀ (hmac : String → String → String) (secret : Option String) (req : WaafiReq)
        (u : Option UserDoc) (now : Nat),
      ((waafiCallback hmac secret req u now).2 = WaafiOutcome.missingSigOrSecret ∨
       (waafiCallback hmac secret req u now).2 = WaafiOutcome.invalidSignature ∨
       (waafiCallback hmac secret req u now).2 = WaafiOutcome.incompleteData ∨
       (waafiCallback hmac secret req u now).2 = WaafiOutcome.invalidFormat ∨
       (waafiCallback hmac secret req u now).2 = WaafiOutcome.incompleteMetadata ∨
       (waafiCallback hmac secret req u now).2 = WaafiOutcome.invalidCoins ∨
       (waafiCallback hmac secret req u now).2 = WaafiOutcome.notSuccessful) →
      (waafiCallback hmac secret req u now).1 = u) ∧
    (∀ (params : Option WaafiParams) (u : Option UserDoc) (now : Nat),
      ((waafiCallbackV1 params u now).2 = WaafiV1Outcome.notApproved ∨
       (waafiCallbackV1 params u now).2 = WaafiV1Outcome.invalidData) →
      (waafiCallbackV1 params u now).1 = u) ∧
    (∀ (intent : StripeIntent) (u : Option UserDoc),
      ((stripeVerifyV0 intent u).2 = StripeV0Outcome.notSucceeded ∨
       (stripeVerifyV0 intent u).2 = StripeV0Outcome.missingMetadata) →
      (stripeVerifyV0 intent u).1 = u) ∧
    (∀ (intentId status : String) (intentAmount : JsNum) (userId coins : String)
        (u : Option UserDoc) (now : Nat),
      (stripeVerifyV1 intentId status intentAmount userId coins u now).2 =
        StripeV1Outcome.notCompleted →
      (stripeVerifyV1 intentId status intentAmount userId coins u now).1 = u) ∧
    (∀ (reference : String) (resp : PaystackV0Resp) (u : Option UserDoc) (now : Nat),
      ((paystackVerifyV0 reference resp u now).2 = PaystackV0Outcome.notSuccessful ∨
       (paystackVerifyV0 reference resp u now).2 = PaystackV0Outcome.missingMetadata) →
      (paystackVerifyV0 reference resp u now).1 = u) := by
  refine ⟨?_, ?_, ?_, ?_, ?_, ?_⟩
  · intro resp sub u now h
    rcases paystackVerify_fst_eq_or resp sub u now with h1 | h2
    · exact h1
    · rcases h with h | h | h <;> rw [h] at h2 <;> cases h2
  · intro hmac secret req u now h
    rcases waafiCallback_fst_eq_or hmac secret req u now with h1 | h2
    · exact h1
    · rcases h with h | h | h | h | h | h | h <;> rw [h] at h2 <;> cases h2
  · intro params u now h
    rcases waafiCallbackV1_fst_eq_or params u now with h1 | h2
    · exact h1
    · rcases h with h | h <;> rw [h] at h2 <;> cases h2
  · intro intent u h
    rcases stripeVerifyV0_fst_eq_or intent u with h1 | ⟨k, h2⟩
    · exact h1
    · rcases h with h | h <;> rw [h] at h2 <;> cases h2
  · intro intentId status intentAmount userId coins u now h
    rcases stripeVerifyV1_fst_eq_or intentId status intentAmount userId coins u now with
      h1 | ⟨k, h2⟩
    · exact h1
    · rw [h] at h2; cases h2
  · intro reference resp u now h
    rcases paystackVerifyV0_fst_eq_or reference resp u now with h1 | h2
    · exact h1
    · rcases h with h | h <;> rw [h] at h2 <;> cases h2

def c4user : UserDoc := { uid := "U4", coins := some (JsNum.num 9), paymentHistory := [] }

def c4resp : PaystackResp :=
  { okStatus := true, dataStatus := "failed", reference := "ref-4"
    amount := JsNum.num 100, metadata := none }

def c4req : WaafiReq :=
  { sigHeader := some "bad", payloadStr := "body", status := "SUCCESS"
    transactionId := "t4", amountPaid := some (JsNum.num 7), currency := "KES"
    customReference := some none }

def c4intent : StripeIntent :=
  { status := "processing", amount := JsNum.num 900, id := "pi-4"
    userId := some "U4", coins := some "9", packageName := "Basic" }

def c4respV0 : PaystackV0Resp :=
  { okStatus := false, dataStatus := "success", amount := JsNum.num 100
    userId := some "U4", coins := some "9", packageName := none }

/-- Closed instances of rejection purity: a failed-status Paystack pull, a
bad-signature waafi webhook, a not-approved waafi callback, a processing
Stripe intent, a not-completed part_001 Stripe intent, and a failed part_000
Paystack pull all leave the user document untouched. -/
theorem c4_rejection_purity_witness :
    (paystackVerify c4resp [] (some c4user) 0).1 = some c4user ∧
    (waafiCallback (fun _ _ => "good") (some "k") c4req (some c4user) 0).1 = some c4user ∧
    (waafiCallbackV1 none (some c4user) 0).1 = some c4user ∧
    (stripeVerifyV0 c4intent (some c4user)).1 = some c4user ∧
    (stripeVerifyV1 "pi-4" "processing" (JsNum.num 900) "U4" "9" (some c4user) 0).1 =
      some c4user ∧
    (paystackVerifyV0 "ref-4" c4respV0 (some c4user) 0).1 = some c4user :=
  ⟨c4_rejection_purity.1 c4resp [] (some c4user) 0 (Or.inl (by decide)),
   c4_rejection_purity.2.1 (fun _ _ => "good") (some "k") c4req (some c4user) 0
     (Or.inr (Or.inl (by decide))),
   c4_rejection_purity.2.2.1 none (some c4user) 0 (Or.inl (by decide)),
   c4_rejection_purity.2.2.2.1 c4intent (some c4user) (Or.inl (by decide)),
   c4_rejection_purity.2.2.2.2.1 "pi-4" "processing" (JsNum.num 900) "U4" "9"
     (some c4user) 0 (by decide),
   c4_rejection_purity.2.2.2.2.2 "ref-4" c4respV0 (some c4user) 0 (Or.inl (by decide))⟩

/-! ### Claim C5 -/

def c5params : WaafiParams :=
  { state := "APPROVED", invoiceId := some "U9", transactionId := "t9"
    referenceId := "r9", txAmount := JsNum.num 0 }

/-- C5.  The part_000/part_001 waafi callback does NOT reject a zero coin
amount: parseInt 0 is not NaN, so an APPROVED callback with txAmount 0 for an
absent user is applied - the user document is created with balance 0 and a
0-coin Payment Record, where the claim requires a rejection with no user
document created. -/
theorem c5_counterexample :
    waafiCallbackV1 (some c5params) none 7 =
      (some { uid := "U9", coins := some (JsNum.num 0)
              paymentHistory := [waafiV1Record c5params (JsNum.num 0) 7] },
       WaafiV1Outcome.credited) := by
  simp +decide [waafiCallbackV1, waafiV1Txn, c5params, jsFalsyStr,
    JsNum.parseInt, jsTrunc, JsNum.isNaN]

theorem le0_eq_true {c : ℚ} (hle : c ≤ 0) : (JsNum.num c).le0 = true := by
  simp [JsNum.le0]
  exact hle

theorem parseInt_of_num {v : JsNum} {c : ℚ} (h : v.parseInt = JsNum.num c) :
    v.parseInt.isNaN = false := by
  rw [h]; rfl

/-- C5 amended.  The server.js paystack and waafi adapters do reject a
nonpositive extracted coin amount before the store is touched; but the
part_000/part_001 waafi callback checks only isNaN, so an APPROVED callback
whose parsed txAmount is 0 or negative is credited as-is, and when the user
document is absent it is created with that nonpositive balance. -/
theorem c5_nonpositive_coins :
    (∀ (resp : PaystackResp) (meta : PaystackMeta) (sub : List PaymentRecord)
        (u : Option UserDoc) (now : Nat) (c : ℚ),
      resp.okStatus = true → resp.dataStatus = "success" →
      resp.metadata = some meta → jsFalsyStr meta.userId = false →
      meta.coins = some (JsNum.num c) → c ≤ 0 →
      paystackVerify resp sub u now = (u, PaystackOutcome.invalidCoins)) ∧
    (∀ (hmac : String → String → String) (secret : Option String) (req : WaafiReq)
        (meta : WaafiMeta) (u : Option UserDoc) (now : Nat) (c : ℚ),
      jsFalsyStr req.sigHeader = false → jsFalsyStr secret = false →
      req.sigHeader.getD "" = hmac (secret.getD "") req.payloadStr →
      req.status ≠ "" → req.transactionId ≠ "" → req.amountPaid.isNone = false →
      req.currency ≠ "" → req.customReference = some (some meta) →
      jsFalsyStr meta.userId = false → meta.coins.isNone = false →
      jsFalsyStr meta.internalTxId = false →
      (meta.coins.getD JsNum.nan).parseInt = JsNum.num c → c ≤ 0 →
      waafiCallback hmac secret req u now = (u, WaafiOutcome.invalidCoins)) ∧
    (∀ (p : WaafiParams) (now : Nat) (c : ℚ),
      p.state = "APPROVED" → jsFalsyStr p.invoiceId = false →
      p.txAmount.parseInt = JsNum.num c → c ≤ 0 →
      waafiCallbackV1 (some p) none now =
        (some { uid := p.invoiceId.getD "", coins := some (JsNum.num c)
                paymentHistory := [waafiV1Record p (JsNum.num c) now] },
         WaafiV1Outcome.credited)) := by
  refine ⟨?_, ?_, ?_⟩
  · intro resp meta sub u now c hok hst hm huid hc hle
    simp [paystackVerify, hok, hst, hm, huid, hc, JsNum.isNaN, le0_eq_true hle]
  · intro hmac secret req meta u now c h1 h2 h3 h4 h5 h6 h7 h8 h9 h10 h11 h12 hle
    simp [waafiCallback, h1, h2, h3, h4, h5, h6, h7, h8, h9, h10, h11, h12,
      JsNum.isNaN, le0_eq_true hle]
  · intro p now c hst hu hc hle
    rw [waafiCallbackV1_eq_txn none now hst hu (parseInt_of_num hc)]
    simp [waafiV1Txn, hc]

def c5params2 : WaafiParams :=
  { state := "APPROVED", invoiceId := some "U9n", transactionId := "t9n"
    referenceId := "r9n", txAmount := JsNum.num (-4) }

def c5meta : PaystackMeta :=
  { userId := some "U5", coins := some (JsNum.num 0), packageName := none }

def c5resp : PaystackResp :=
  { okStatus := true, dataStatus := "success", reference := "ref-5"
    amount := JsNum.num 0, metadata := some c5meta }

def c5waafiMeta : WaafiMeta :=
  { userId := some "U5", coins := some (JsNum.num (-3)), originalAmountKES := JsNum.num 0
    packageName := "P", internalTxId := some "itx-5" }

def c5req : WaafiReq :=
  { sigHeader := some "sig", payloadStr := "body", status := "SUCCESS"
    transactionId := "t5", amountPaid := some (JsNum.num 1), currency := "KES"
    customReference := some (some c5waafiMeta) }

def c5user : UserDoc := { uid := "U5", coins := some (JsNum.num 2), paymentHistory := [] }

/-- Closed instances of the amended C5 theorem: a 0-coin paystack
confirmation and a negative-coin waafi webhook are rejected without mutation
by the server.js routes, while the part_000/part_001 waafi callback applies a
negative txAmount and creates the user. -/
theorem c5_nonpositive_coins_witness :
    paystackVerify c5resp [] (some c5user) 0 = (some c5user, PaystackOutcome.invalidCoins) ∧
    waafiCallback (fun _ _ => "sig") (some "k") c5req (some c5user) 0 =
      (some c5user, WaafiOutcome.invalidCoins) ∧
    waafiCallbackV1 (some c5params2) none 8 =
      (some { uid := "U9n", coins := some (JsNum.num (-4))
              paymentHistory := [waafiV1Record c5params2 (JsNum.num (-4)) 8] },
       WaafiV1Outcome.credited) :=
  ⟨c5_nonpositive_coins.1 c5resp c5meta [] (some c5user) 0 0 rfl rfl rfl (by decide)
     rfl (by norm_num),
   c5_nonpositive_coins.2.1 (fun _ _ => "sig") (some "k") c5req c5waafiMeta
     (some c5user) 0 (-3) (by decide) (by decide) rfl (by decide) (by decide) rfl
     (by decide) rfl (by decide) rfl (by decide) (by decide) (by norm_num),
   c5_nonpositive_coins.2.2 c5params2 8 (-4) rfl (by decide) (by decide) (by norm_num)⟩

/-! ### Claim C6 -/

def c6meta : WaafiMeta :=
  { userId := some "U6", coins := some (JsNum.num 40), originalAmountKES := JsNum.num 500
    packageName := "Gold", internalTxId := some "itx-6" }

def c6req : WaafiReq :=
  { sigHeader := some "sig", payloadStr := "body", status := "success"
    transactionId := "t6", amountPaid := some (JsNum.num 10), currency := "USD"
    customReference := some (some c6meta) }

def c6user : UserDoc := { uid := "U6", coins := some (JsNum.num 0), paymentHistory := [] }

/-- C6.  The server.js waafi callback does NOT use exact string equality
against its approval sentinel: it uppercases the reported status before
comparing with SUCCESS, so the lowercase status "success" - which is not
equal to the sentinel - is accepted and credited. -/
theorem c6_counterexample :
    (waafiCallback (fun _ _ => "sig") (some "k") c6req (some c6user) 3).2 =
      WaafiOutcome.credited ∧
    c6req.status ≠ "SUCCESS" := by
  constructor
  · simp +decide [waafiCallback, waafiTxn, c6req, c6meta, c6user, jsFalsyStr,
      asciiUpper, JsNum.parseInt, jsTrunc, JsNum.isNaN, JsNum.le0]
  · decide

/-- C6 amended.  The card-international adapter accepts only status exactly
"succeeded", the regional-card adapter only "success" (both fields of the
provider response), and the part_000/part_001 waafi callback only state
exactly "APPROVED"; the server.js waafi callback deviates: it credits exactly
when the ASCII-uppercased status equals "SUCCESS", a case-insensitive match. -/
theorem c6_status_sentinels :
    (∀ (intent : StripeIntent) (u : Option UserDoc),
      (stripeVerifyV0 intent u).2 ≠ StripeV0Outcome.notSucceeded →
      intent.status = "succeeded") ∧
    (∀ (intentId status : String) (intentAmount : JsNum) (userId coins : String)
        (u : Option UserDoc) (now : Nat),
      (stripeVerifyV1 intentId status intentAmount userId coins u now).2 ≠
        StripeV1Outcome.notCompleted →
      status = "succeeded") ∧
    (∀ (resp : PaystackResp) (sub : List PaymentRecord) (u : Option UserDoc) (now : Nat),
      (paystackVerify resp sub u now).2 ≠ PaystackOutcome.notSuccess →
      resp.okStatus = true ∧ resp.dataStatus = "success") ∧
    (∀ (reference : String) (resp : PaystackV0Resp) (u : Option UserDoc) (now : Nat),
      (paystackVerifyV0 reference resp u now).2 ≠ PaystackV0Outcome.notSuccessful →
      resp.okStatus = true ∧ resp.dataStatus = "success") ∧
    (∀ (p : WaafiParams) (u : Option UserDoc) (now : Nat),
      (waafiCallbackV1 (some p) u now).2 ≠ WaafiV1Outcome.notApproved →
      p.state = "APPROVED") ∧
    (∀ (hmac : String → String → String) (secret : Option String) (req : WaafiReq)
        (u : Option UserDoc) (now : Nat),
      (waafiCallback hmac secret req u now).2 = WaafiOutcome.credited →
      asciiUpper req.status = "SUCCESS") := by
  refine ⟨?_, ?_, ?_, ?_, ?_, ?_⟩
  · intro intent u h
    by_contra hne
    exact h (by simp [stripeVerifyV0, hne])
  · intro intentId status intentAmount userId coins u now h
    by_contra hne
    exact h (by simp [stripeVerifyV1, hne])
  · intro resp sub u now h
    by_contra hne
    rw [not_and_or] at hne
    rcases hne with hne | hne
    · exact h (by simp [paystackVerify, Bool.not_eq_true] at hne ⊢; simp [hne])
    · exact h (by simp [paystackVerify, hne])
  · intro reference resp u now h
    by_contra hne
    rw [not_and_or] at hne
    rcases hne with hne | hne
    · exact h (by simp [paystackVerifyV0, Bool.not_eq_true] at hne ⊢; simp [hne])
    · exact h (by simp [paystackVerifyV0, hne])
  · intro p u now h
    by_contra hne
    exact h (by simp [waafiCallbackV1, hne])
  · intro hmac secret req u now h
    simp only [waafiCallback, waafiTxn] at h
    repeat (any_goals split at h)
    all_goals simp_all

def c6intent : StripeIntent :=
  { status := "succeeded", amount := JsNum.num 700, id := "pi-6"
    userId := some "U6", coins := some "7", packageName := "Basic" }

def c6meta2 : PaystackMeta :=
  { userId := some "U6", coins := some (JsNum.num 7), packageName := none }

def c6resp : PaystackResp :=
  { okStatus := true, dataStatus := "success", reference := "ref-6"
    amount := JsNum.num 700, metadata := some c6meta2 }

def c6respV0 : PaystackV0Resp :=
  { okStatus := true, dataStatus := "success", amount := JsNum.num 700
    userId := some "U6", coins := some "7", packageName := none }

def c6params : WaafiParams :=
  { state := "APPROVED", invoiceId := some "U6", transactionId := "t6"
    referenceId := "r6", txAmount := JsNum.num 7 }

/-- Closed instances of the sentinel theorem at accepted confirmations. -/
theorem c6_status_sentinels_witness :
    c6intent.status = "succeeded" ∧
    ("succeeded" : String) = "succeeded" ∧
    (c6resp.okStatus = true ∧ c6resp.dataStatus = "success") ∧
    (c6respV0.okStatus = true ∧ c6respV0.dataStatus = "success") ∧
    c6params.state = "APPROVED" ∧
    asciiUpper c6req.status = "SUCCESS" :=
  ⟨c6_status_sentinels.1 c6intent (some c6user) (by decide),
   c6_status_sentinels.2.1 "pi-6" "succeeded" (JsNum.num 700) "U6" "7"
     (some c6user) 0 (by decide),
   c6_status_sentinels.2.2.1 c6resp [] (some c6user) 0 (by decide),
   c6_status_sentinels.2.2.2.1 "ref-6" c6respV0 (some c6user) 0 (by decide),
   c6_status_sentinels.2.2.2.2.1 c6params (some c6user) 0 (by decide),
   c6_status_sentinels.2.2.2.2.2 (fun _ _ => "sig") (some "k") c6req
     (some c6user) 3 (by
       simp +decide [waafiCallback, waafiTxn, c6req, c6meta, c6user, jsFalsyStr,
         asciiUpper, JsNum.parseInt, jsTrunc, JsNum.isNaN, JsNum.le0])⟩

/-! ### Claim C7 -/

def c7meta : PaystackMeta :=
  { userId := some "U7", coins := some (JsNum.num 25), packageName := some "Silver" }

def c7resp : PaystackResp :=
  { okStatus := true, dataStatus := "success", reference := "ref-7"
    amount := JsNum.num 2500, metadata := some c7meta }

/-- C7.  The server.js paystack Credit Applier does NOT create an absent user
document: a fully valid 25-coin confirmation for a user with no document
throws inside the transaction (rolling it back), leaves the store with no
document, and reports the user-not-found failure, where the claim requires
the document to be created with the credited balance. -/
theorem c7_counterexample :
    paystackVerify c7resp [] none 1 = (none, PaystackOutcome.userNotFound) := by
  simp +decide [paystackVerify, paystackTxn, paystackDupCheck, c7resp, c7meta,
    jsFalsyStr, JsNum.isNaN, JsNum.le0]

/-- C7 amended.  Lazy creation holds only for some appliers: the part_000
paystack verify and the part_000/part_001 waafi callback (and the part_001
stripe verify) create the absent user document with the credited balance and
the Payment Record as its sole history entry; the server.js paystack and
waafi appliers instead throw (transaction rolled back, no document created)
and the part_000 stripe verify answers 404 without creating anything.  No
operation of the core ever deletes a present user document. -/
theorem c7_lazy_creation :
    (∀ (reference : String) (resp : PaystackV0Resp) (now : Nat),
      resp.okStatus = true → resp.dataStatus = "success" →
      jsFalsyStr resp.userId = false → jsFalsyStr resp.coins = false →
      paystackVerifyV0 reference resp none now =
        (some { uid := resp.userId.getD ""
                coins := some (jsParseIntStr (resp.coins.getD ""))
                paymentHistory := [paystackV0Record reference resp.amount
                  (jsParseIntStr (resp.coins.getD "")) resp.packageName now] },
         PaystackV0Outcome.credited)) ∧
    (∀ (p : WaafiParams) (now : Nat),
      p.state = "APPROVED" → jsFalsyStr p.invoiceId = false →
      (p.txAmount.parseInt).isNaN = false →
      waafiCallbackV1 (some p) none now =
        (some { uid := p.invoiceId.getD ""
                coins := some p.txAmount.parseInt
                paymentHistory := [waafiV1Record p p.txAmount.parseInt now] },
         WaafiV1Outcome.credited)) ∧
    (∀ (intentId : String) (intentAmount : JsNum) (userId coins : String)
        (now : Nat) (k : ℚ),
      jsParseIntStr coins = JsNum.num k →
      stripeVerifyV1 intentId "succeeded" intentAmount userId coins none now =
        (some { uid := userId
                coins := some (JsNum.num k)
                paymentHistory := [stripeV1Record intentId intentAmount (JsNum.num k) now] },
         StripeV1Outcome.ok (JsNum.num k))) ∧
    (∀ (resp : PaystackResp) (meta : PaystackMeta) (sub : List PaymentRecord)
        (now : Nat) (c : ℚ),
      resp.okStatus = true → resp.dataStatus = "success" →
      resp.metadata = some meta → jsFalsyStr meta.userId = false →
      meta.coins = some (JsNum.num c) → 0 < c →
      paystackDupCheck resp.reference sub = false →
      paystackVerify resp sub none now = (none, PaystackOutcome.userNotFound)) ∧
    (∀ (hmac : String → String → String) (secret : Option String) (req : WaafiReq)
        (meta : WaafiMeta) (now : Nat) (c : ℚ),
      jsFalsyStr req.sigHeader = false → jsFalsyStr secret = false →
      req.sigHeader.getD "" = hmac (secret.getD "") req.payloadStr →
      req.status ≠ "" → req.transactionId ≠ "" → req.amountPaid.isNone = false →
      req.currency ≠ "" → req.customReference = some (some meta) →
      jsFalsyStr meta.userId = false → meta.coins.isNone = false →
      jsFalsyStr meta.internalTxId = false →
      (meta.coins.getD JsNum.nan).parseInt = JsNum.num c → 0 < c →
      asciiUpper req.status = "SUCCESS" →
      waafiCallback hmac secret req none now = (none, WaafiOutcome.userNotFound)) ∧
    (∀ (intent : StripeIntent),
      intent.status = "succeeded" → jsFalsyStr intent.userId = false →
      jsFalsyStr intent.coins = false →
      stripeVerifyV0 intent none = (none, StripeV0Outcome.userNotFound)) ∧
    ((∀ (resp : PaystackResp) (sub : List PaymentRecord) (d : UserDoc) (now : Nat),
        (paystackVerify resp sub (some d) now).1.isSome = true) ∧
     (∀ (hmac : String → String → String) (secret : Option String) (req : WaafiReq)
         (d : UserDoc) (now : Nat),
        (waafiCallback hmac secret req (some d) now).1.isSome = true) ∧
     (∀ (params : Option WaafiParams) (d : UserDoc) (now : Nat),
        (waafiCallbackV1 params (some d) now).1.isSome = true) ∧
     (∀ (intent : StripeIntent) (d : UserDoc),
        (stripeVerifyV0 intent (some d)).1.isSome = true) ∧
     (∀ (intentId status : String) (intentAmount : JsNum) (userId coins : String)
         (d : UserDoc) (now : Nat),
        (stripeVerifyV1 intentId status intentAmount userId coins (some d) now).1.isSome
          = true) ∧
     (∀ (reference : String) (resp : PaystackV0Resp) (d : UserDoc) (now : Nat),
        (paystackVerifyV0 reference resp (some d) now).1.isSome = true)) := by
  refine ⟨?_, ?_, ?_, ?_, ?_, ?_, ?_, ?_, ?_, ?_, ?_, ?_⟩
  · intro reference resp now hok hst huid hcs
    rw [paystackVerifyV0_eq_txn reference none now hok hst huid hcs]
    simp [paystackV0Txn]
  · intro p now hst hu hnan
    rw [waafiCallbackV1_eq_txn none now hst hu hnan]
    simp [waafiV1Txn]
  · intro intentId intentAmount userId coins now k hk
    rw [stripeVerifyV1_eq_txn intentId intentAmount userId coins none now rfl]
    simp [stripeV1Txn, hk, JsNum.zero_add]
  · intro resp meta sub now c hok hst hm huid hc hpos hdup
    rw [paystackVerify_eq_txn sub none now hok hst hm huid hc hpos hdup]
    simp [paystackTxn]
  · intro hmac secret req meta now c h1 h2 h3 h4 h5 h6 h7 h8 h9 h10 h11 h12 hpos h13
    rw [waafiCallback_eq_txn none now h1 h2 h3 h4 h5 h6 h7 h8 h9 h10 h11 h12 hpos h13]
    simp [waafiTxn]
  · intro intent hst huid hcs
    exact stripeVerifyV0_eq_none hst huid hcs
  · intro resp sub d now
    exact paystackVerify_isSome resp sub (some d) now rfl
  · intro hmac secret req d now
    exact waafiCallback_isSome hmac secret req (some d) now rfl
  · intro params d now
    exact waafiCallbackV1_isSome params (some d) now rfl
  · intro intent d
    exact stripeVerifyV0_isSome intent (some d) rfl
  · intro intentId status intentAmount userId coins d now
    exact stripeVerifyV1_isSome intentId status intentAmount userId coins (some d) now rfl
  · intro reference resp d now
    exact paystackVerifyV0_isSome reference resp (some d) now rfl

def c7respV0 : PaystackV0Resp :=
  { okStatus := true, dataStatus := "success", amount := JsNum.num 2500
    userId := some "U7", coins := some "25", packageName := some "Silver" }

def c7params : WaafiParams :=
  { state := "APPROVED", invoiceId := some "U7", transactionId := "t7"
    referenceId := "r7", txAmount := JsNum.num 25 }

def c7waafiMeta : WaafiMeta :=
  { userId := some "U7", coins := some (JsNum.num 25), originalAmountKES := JsNum.num 2500
    packageName := "Silver", internalTxId := some "itx-7" }

def c7req : WaafiReq :=
  { sigHeader := some "sig", payloadStr := "body", status := "SUCCESS"
    transactionId := "t7", amountPaid := some (JsNum.num 18), currency := "USD"
    customReference := some (some c7waafiMeta) }

def c7intent : StripeIntent :=
  { status := "succeeded", amount := JsNum.num 2500, id := "pi-7"
    userId := some "U7", coins := some "25", packageName := "Silver" }

def c7user : UserDoc := { uid := "U7", coins := some (JsNum.num 1), paymentHistory := [] }

/-- Closed instances of the amended C7 theorem. -/
theorem c7_lazy_creation_witness :
    paystackVerifyV0 "ref-7" c7respV0 none 1 =
      (some { uid := c7respV0.userId.getD ""
              coins := some (jsParseIntStr (c7respV0.coins.getD ""))
              paymentHistory := [paystackV0Record "ref-7" c7respV0.amount
                (jsParseIntStr (c7respV0.coins.getD "")) c7respV0.packageName 1] },
       PaystackV0Outcome.credited) ∧
    waafiCallbackV1 (some c7params) none 1 =
      (some { uid := c7params.invoiceId.getD ""
              coins := some c7params.txAmount.parseInt
              paymentHistory := [waafiV1Record c7params c7params.txAmount.parseInt 1] },
       WaafiV1Outcome.credited) ∧
    stripeVerifyV1 "pi-7" "succeeded" (JsNum.num 2500) "U7" "25" none 1 =
      (some { uid := "U7", coins := some (JsNum.num 25)
              paymentHistory := [stripeV1Record "pi-7" (JsNum.num 2500) (JsNum.num 25) 1] },
       StripeV1Outcome.ok (JsNum.num 25)) ∧
    paystackVerify c7resp [] none 2 = (none, PaystackOutcome.userNotFound) ∧
    waafiCallback (fun _ _ => "sig") (some "k") c7req none 1 =
      (none, WaafiOutcome.userNotFound) ∧
    stripeVerifyV0 c7intent none = (none, StripeV0Outcome.userNotFound) ∧
    (paystackVerify c7resp [] (some c7user) 3).1.isSome = true ∧
    (waafiCallbackV1 (some c7params) (some c7user) 3).1.isSome = true :=
  ⟨c7_lazy_creation.1 "ref-7" c7respV0 1 rfl rfl (by decide) (by decide),
   c7_lazy_creation.2.1 c7params 1 rfl (by decide) (by decide),
   c7_lazy_creation.2.2.1 "pi-7" (JsNum.num 2500) "U7" "25" 1 25 (by decide),
   c7_lazy_creation.2.2.2.1 c7resp c7meta [] 2 25 rfl rfl rfl (by decide) rfl
     (by norm_num) rfl,
   c7_lazy_creation.2.2.2.2.1 (fun _ _ => "sig") (some "k") c7req c7waafiMeta 1 25
     (by decide) (by decide) rfl (by decide) (by decide) rfl (by decide) rfl
     (by decide) rfl (by decide) (by decide) (by norm_num) (by decide),
   c7_lazy_creation.2.2.2.2.2.1 c7intent rfl (by decide) (by decide),
   c7_lazy_creation.2.2.2.2.2.2.1 c7resp [] c7user 3,
   c7_lazy_creation.2.2.2.2.2.2.2.2.1 (some c7params) c7user 3⟩

/-! ### Claim C8 -/

def c8meta : PaystackMeta :=
  { userId := some "U8", coins := some (JsNum.num 40), packageName := none }

def c8resp : PaystackResp :=
  { okStatus := true, dataStatus := "success", reference := "ref-8"
    amount := JsNum.num 4000, metadata := some c8meta }

/-- The state of user U8 after the first application of confirmation ref-8:
balance 40 and the record in the paymentHistory array field, the
paymentHistory subcollection empty (no applier writes it). -/
def c8user : UserDoc :=
  { uid := "U8", coins := some (JsNum.num 40)
    paymentHistory := [paystackRecord c8meta c8resp (JsNum.num 40) 1] }

/-- C8.  A redelivery of an already-applied (gateway, reference) key is NOT a
mutation-free equivalent response: the duplicate check looks in the (empty)
subcollection, so the redelivery mutates the store - balance 40 becomes 80
and a second ref-8 record is appended - and answers as a fresh success. -/
theorem c8_counterexample :
    paystackVerify c8resp [] (some c8user) 2 =
      (some { uid := "U8", coins := some (JsNum.num 80)
              paymentHistory := [paystackRecord c8meta c8resp (JsNum.num 40) 1,
                                 paystackRecord c8meta c8resp (JsNum.num 40) 2] },
       PaystackOutcome.credited) := by
  simp +decide [paystackVerify, paystackTxn, paystackDupCheck, paystackRecord,
    c8resp, c8meta, c8user, jsFalsyStr, jsOrElse, readCoins, arrayUnion,
    JsNum.isNaN, JsNum.le0, JsNum.add, JsNum.div100]
  norm_num

/-- C8 amended.  The duplicate early return triggers only when a record with
the verified reference exists in the paymentHistory subcollection the check
queries (a place no applier writes); when it does trigger, the route makes no
mutation but answers with the bare already-processed acknowledgment - an
outcome distinct from the fresh-success response and carrying neither the
coin amount nor any balance. -/
theorem c8_duplicate_branch {resp : PaystackResp} {meta : PaystackMeta} {c : ℚ}
    (sub : List PaymentRecord) (u : Option UserDoc) (now : Nat)
    (hok : resp.okStatus = true) (hst : resp.dataStatus = "success")
    (hm : resp.metadata = some meta) (huid : jsFalsyStr meta.userId = false)
    (hc : meta.coins = some (JsNum.num c)) (hpos : 0 < c)
    (hdup : paystackDupCheck resp.reference sub = true) :
    paystackVerify resp sub u now = (u, PaystackOutcome.alreadyProcessed) ∧
    PaystackOutcome.alreadyProcessed ≠ PaystackOutcome.credited := by
  refine ⟨?_, by decide⟩
  simp [paystackVerify, hok, hst, hm, huid, hc, hdup, JsNum.isNaN, le0_eq_false hpos]

def c8subRecord : PaymentRecord :=
  { gateway := "paystack", reference := "ref-8", coins := JsNum.num 40
    amount := JsNum.num 40, status := "success", packageName := "N/A", timestamp := 0 }

/-- Closed instance of the duplicate-branch theorem: with a ref-8 record
present in the queried subcollection, the redelivery makes no mutation. -/
theorem c8_duplicate_branch_witness :
    paystackVerify c8resp [c8subRecord] (some c8user) 2 =
      (some c8user, PaystackOutcome.alreadyProcessed) ∧
    PaystackOutcome.alreadyProcessed ≠ PaystackOutcome.credited :=
  c8_duplicate_branch [c8subRecord] (some c8user) 2 rfl rfl rfl (by decide) rfl
    (by norm_num) (by decide)

/-! ### Claim C9 -/

def c9meta : PaystackMeta :=
  { userId := some "U9f", coins := some (JsNum.num (5 / 2)), packageName := none }

def c9resp : PaystackResp :=
  { okStatus := true, dataStatus := "success", reference := "ref-9"
    amount := JsNum.num 250, metadata := some c9meta }

def c9user : UserDoc := { uid := "U9f", coins := some (JsNum.num 0), paymentHistory := [] }

/-- C9.  The server.js paystack route converts the coin metadata with Number,
not parseInt, and only checks isNaN and nonpositivity - so a fractional coin
value of 5/2 passes the gates, is added to the balance and recorded in the
Payment Record: fractional coins are created. -/
theorem c9_counterexample :
    paystackVerify c9resp [] (some c9user) 1 =
      (some { uid := "U9f", coins := some (JsNum.num (5 / 2))
              paymentHistory := [paystackRecord c9meta c9resp (JsNum.num (5 / 2)) 1] },
       PaystackOutcome.credited) ∧
    ((5 : ℚ) / 2).den = 2 := by
  constructor
  · simp +decide [paystackVerify, paystackTxn, paystackDupCheck, paystackRecord,
      c9resp, c9meta, c9user, jsFalsyStr, jsOrElse, readCoins, arrayUnion,
      JsNum.isNaN, JsNum.le0, JsNum.add, JsNum.div100]
  · norm_num

theorem waafiV1Txn_new_record {p : WaafiParams} {v : JsNum} {now : Nat}
    {u : Option UserDoc} {r : PaymentRecord}
    (hmem : r ∈ historyOf (waafiV1Txn p v now u).1) (hold : r ∉ historyOf u) :
    r.coins = v := by
  cases u with
  | none =>
      simp [waafiV1Txn, historyOf] at hmem
      rw [hmem]; rfl
  | some d =>
      simp only [waafiV1Txn, historyOf] at hmem hold
      rcases mem_of_mem_arrayUnion hmem with h | h
      · exact absurd h hold
      · rw [h]; rfl

theorem stripeV1Txn_new_record {intentId : String} {intentAmount v : JsNum}
    {userId : String} {now : Nat} {u : Option UserDoc} {r : PaymentRecord}
    (hmem : r ∈ historyOf (stripeV1Txn intentId intentAmount v userId now u).1)
    (hold : r ∉ historyOf u) : r.coins = v := by
  cases u with
  | none =>
      simp [stripeV1Txn, historyOf] at hmem
      rw [hmem]; rfl
  | some d =>
      simp only [stripeV1Txn, historyOf] at hmem hold
      rcases mem_of_mem_arrayUnion hmem with h | h
      · exact absurd h hold
      · rw [h]; rfl

theorem paystackV0Txn_new_record {reference : String} {resp : PaystackV0Resp}
    {v : JsNum} {now : Nat} {u : Option UserDoc} {r : PaymentRecord}
    (hmem : r ∈ historyOf (paystackV0Txn reference resp v now u).1)
    (hold : r ∉ historyOf u) : r.coins = v := by
  cases u with
  | none =>
      simp [paystackV0Txn, historyOf] at hmem
      rw [hmem]; rfl
  | some d =>
      simp only [paystackV0Txn, historyOf] at hmem hold
      rcases mem_of_mem_arrayUnion hmem with h | h
      · exact absurd h hold
      · rw [h]; rfl

theorem waafiCallbackV1_fst_cases (params : Option WaafiParams) (u : Option UserDoc)
    (now : Nat) :
    (waafiCallbackV1 params u now).1 = u ∨
    ∃ p, params = some p ∧ (p.txAmount.parseInt).isNaN = false ∧
      (waafiCallbackV1 params u now).1 = (waafiV1Txn p (p.txAmount.parseInt) now u).1 := by
  cases params with
  | none => exact Or.inl rfl
  | some p =>
      by_cases hst : p.state = "APPROVED"
      · by_cases hg : (jsFalsyStr p.invoiceId || (p.txAmount.parseInt).isNaN) = true
        · exact Or.inl (by simp [waafiCallbackV1, hst, hg])
        · simp only [Bool.or_eq_true, not_or, Bool.not_eq_true] at hg
          exact Or.inr ⟨p, rfl, hg.2, by simp [waafiCallbackV1, hst, hg.1, hg.2]⟩
      · exact Or.inl (by simp [waafiCallbackV1, hst])

theorem stripeVerifyV1_fst_cases (intentId status : String) (intentAmount : JsNum)
    (userId coins : String) (u : Option UserDoc) (now : Nat) :
    (stripeVerifyV1 intentId status intentAmount userId coins u now).1 = u ∨
    (stripeVerifyV1 intentId status intentAmount userId coins u now).1 =
      (stripeV1Txn intentId intentAmount (jsParseIntStr coins) userId now u).1 := by
  by_cases hst : status = "succeeded"
  · exact Or.inr (by simp [stripeVerifyV1, hst])
  · exact Or.inl (by simp [stripeVerifyV1, hst])

theorem paystackVerifyV0_fst_cases (reference : String) (resp : PaystackV0Resp)
    (u : Option UserDoc) (now : Nat) :
    (paystackVerifyV0 reference resp u now).1 = u ∨
    (paystackVerifyV0 reference resp u now).1 =
      (paystackV0Txn reference resp (jsParseIntStr (resp.coins.getD "")) now u).1 := by
  by_cases h1 : (!resp.okStatus || resp.dataStatus != "success") = true
  · exact Or.inl (by simp [paystackVerifyV0, h1])
  · by_cases h2 : (jsFalsyStr resp.userId || jsFalsyStr resp.coins) = true
    · exact Or.inl (by simp only [paystackVerifyV0, h1, h2]; simp)
    · exact Or.inr (by simp only [paystackVerifyV0, h1, h2]; simp)

/-- C9 amended.  The parseInt-based routes never create fractional coins:
every Payment Record a part_000/part_001 waafi callback appends has an
integer coin amount, and every record appended by the part_001 stripe verify
or the part_000 paystack verify has an integer or NaN coin amount (those two
routes have no NaN guard).  The paystack route of server.js, which uses the
plain Number coercion, is the one that can credit a fraction. -/
theorem c9_integer_coins :
    (∀ (params : Option WaafiParams) (u : Option UserDoc) (now : Nat)
        (r : PaymentRecord),
      r ∈ historyOf (waafiCallbackV1 params u now).1 → r ∉ historyOf u →
      ∃ q : ℚ, r.coins = JsNum.num q ∧ q.den = 1) ∧
    (∀ (intentId status : String) (intentAmount : JsNum) (userId coins : String)
        (u : Option UserDoc) (now : Nat) (r : PaymentRecord),
      r ∈ historyOf (stripeVerifyV1 intentId status intentAmount userId coins u now).1 →
      r ∉ historyOf u →
      r.coins = JsNum.nan ∨ ∃ q : ℚ, r.coins = JsNum.num q ∧ q.den = 1) ∧
    (∀ (reference : String) (resp : PaystackV0Resp) (u : Option UserDoc) (now : Nat)
        (r : PaymentRecord),
      r ∈ historyOf (paystackVerifyV0 reference resp u now).1 → r ∉ historyOf u →
      r.coins = JsNum.nan ∨ ∃ q : ℚ, r.coins = JsNum.num q ∧ q.den = 1) := by
  refine ⟨?_, ?_, ?_⟩
  · intro params u now r hmem hold
    rcases waafiCallbackV1_fst_cases params u now with h | ⟨p, hp, hnan, h⟩
    · rw [h] at hmem; exact absurd hmem hold
    · rw [h] at hmem
      have hrc := waafiV1Txn_new_record hmem hold
      rcases hv : p.txAmount.parseInt with _ | q
      · rw [hv] at hnan; simp [JsNum.isNaN] at hnan
      · exact ⟨q, by rw [hrc, hv], JsNum.parseInt_den hv⟩
  · intro intentId status intentAmount userId coins u now r hmem hold
    rcases stripeVerifyV1_fst_cases intentId status intentAmount userId coins u now with
      h | h
    · rw [h] at hmem; exact absurd hmem hold
    · rw [h] at hmem
      have hrc := stripeV1Txn_new_record hmem hold
      rcases hv : jsParseIntStr coins with _ | q
      · exact Or.inl (by rw [hrc, hv])
      · exact Or.inr ⟨q, by rw [hrc, hv], jsParseIntStr_den hv⟩
  · intro reference resp u now r hmem hold
    rcases paystackVerifyV0_fst_cases reference resp u now with h | h
    · rw [h] at hmem; exact absurd hmem hold
    · rw [h] at hmem
      have hrc := paystackV0Txn_new_record hmem hold
      rcases hv : jsParseIntStr (resp.coins.getD "") with _ | q
      · exact Or.inl (by rw [hrc, hv])
      · exact Or.inr ⟨q, by rw [hrc, hv], jsParseIntStr_den hv⟩

def c9params : WaafiParams :=
  { state := "APPROVED", invoiceId := some "U9i", transactionId := "t9i"
    referenceId := "r9i", txAmount := JsNum.num 13 }

/-- Closed instance of the integer-coins theorem: the record created by a
13-coin waafi callback for an absent user has an integer coin amount. -/
theorem c9_integer_coins_witness :
    ∃ q : ℚ, (waafiV1Record c9params (JsNum.num 13) 2).coins = JsNum.num q ∧ q.den = 1 :=
  c9_integer_coins.1 (some c9params) none 2 (waafiV1Record c9params (JsNum.num 13) 2)
    (by simp +decide [waafiCallbackV1, waafiV1Txn, c9params, jsFalsyStr,
      JsNum.parseInt, jsTrunc, JsNum.isNaN, historyOf])
    (by simp [historyOf])

/-! ### Claim C10 -/

theorem readCoins_falsy {o : Option JsNum}
    (hf : o = none ∨ o = some (JsNum.num 0) ∨ o = some JsNum.nan) :
    readCoins o = JsNum.num 0 := by
  rcases hf with rfl | rfl | rfl <;> rfl

/-- C10.  On every credit path, a present user document whose coins field is
absent or otherwise falsy (the numeric falsy values: 0 and NaN) is read as
balance 0, so a successful credit of c coins stores exactly c - the operation
does not fail on the missing field.  Shown for the server.js paystack route,
the part_001 stripe verify and the part_000 stripe verify, which all read
"coins || 0". -/
theorem c10_default_balance :
    (∀ (resp : PaystackResp) (meta : PaystackMeta) (sub : List PaymentRecord)
        (d : UserDoc) (now : Nat) (c : ℚ),
      resp.okStatus = true → resp.dataStatus = "success" →
      resp.metadata = some meta → jsFalsyStr meta.userId = false →
      meta.coins = some (JsNum.num c) → 0 < c →
      paystackDupCheck resp.reference sub = false →
      (d.coins = none ∨ d.coins = some (JsNum.num 0) ∨ d.coins = some JsNum.nan) →
      paystackVerify resp sub (some d) now =
        (some { d with
                  coins := some (JsNum.num c)
                  paymentHistory :=
                    arrayUnion d.paymentHistory (paystackRecord meta resp (JsNum.num c) now) },
         PaystackOutcome.credited)) ∧
    (∀ (intentId : String) (intentAmount : JsNum) (userId coins : String)
        (d : UserDoc) (now : Nat) (k : ℚ),
      jsParseIntStr coins = JsNum.num k →
      (d.coins = none ∨ d.coins = some (JsNum.num 0) ∨ d.coins = some JsNum.nan) →
      stripeVerifyV1 intentId "succeeded" intentAmount userId coins (some d) now =
        (some { d with
                  coins := some (JsNum.num k)
                  paymentHistory := arrayUnion d.paymentHistory
                    (stripeV1Record intentId intentAmount (JsNum.num k) now) },
         StripeV1Outcome.ok (JsNum.num k))) ∧
    (∀ (intent : StripeIntent) (d : UserDoc) (k : ℚ),
      intent.status = "succeeded" → jsFalsyStr intent.userId = false →
      jsFalsyStr intent.coins = false →
      jsParseIntStr (intent.coins.getD "") = JsNum.num k →
      (d.coins = none ∨ d.coins = some (JsNum.num 0) ∨ d.coins = some JsNum.nan) →
      stripeVerifyV0 intent (some d) =
        (some { d with coins := some (JsNum.num k) }, StripeV0Outcome.ok (JsNum.num k))) := by
  refine ⟨?_, ?_, ?_⟩
  · intro resp meta sub d now c hok hst hm huid hc hpos hdup hf
    rw [paystackVerify_eq_txn sub (some d) now hok hst hm huid hc hpos hdup]
    simp [paystackTxn, readCoins_falsy hf, JsNum.add]
  · intro intentId intentAmount userId coins d now k hk hf
    rw [stripeVerifyV1_eq_txn intentId intentAmount userId coins (some d) now rfl]
    simp [stripeV1Txn, hk, readCoins_falsy hf, JsNum.add]
  · intro intent d k hst huid hcs hk hf
    rw [stripeVerifyV0_eq_some d hst huid hcs]
    simp [hk, readCoins_falsy hf, JsNum.add]

def c10meta : PaystackMeta :=
  { userId := some "U10", coins := some (JsNum.num 12), packageName := none }

def c10resp : PaystackResp :=
  { okStatus := true, dataStatus := "success", reference := "ref-10"
    amount := JsNum.num 1200, metadata := some c10meta }

/-- A user document with no coins field at all. -/
def c10user : UserDoc := { uid := "U10", coins := none, paymentHistory := [] }

def c10intent : StripeIntent :=
  { status := "succeeded", amount := JsNum.num 1200, id := "pi-10"
    userId := some "U10", coins := some "12", packageName := "Plus" }

/-- Closed instances of the default-balance theorem: crediting 12 coins into
a document whose coins field is absent stores exactly 12, on all three
routes. -/
theorem c10_default_balance_witness :
    paystackVerify c10resp [] (some c10user) 1 =
      (some { c10user with
                coins := some (JsNum.num 12)
                paymentHistory := arrayUnion c10user.paymentHistory
                  (paystackRecord c10meta c10resp (JsNum.num 12) 1) },
       PaystackOutcome.credited) ∧
    stripeVerifyV1 "pi-10" "succeeded" (JsNum.num 1200) "U10" "12" (some c10user) 1 =
      (some { c10user with
                coins := some (JsNum.num 12)
                paymentHistory := arrayUnion c10user.paymentHistory
                  (stripeV1Record "pi-10" (JsNum.num 1200) (JsNum.num 12) 1) },
       StripeV1Outcome.ok (JsNum.num 12)) ∧
    stripeVerifyV0 c10intent (some c10user) =
      (some { c10user with coins := some (JsNum.num 12) },
       StripeV0Outcome.ok (JsNum.num 12)) :=
  ⟨c10_default_balance.1 c10resp c10meta [] c10user 1 12 rfl rfl rfl (by decide) rfl
     (by norm_num) rfl (Or.inl rfl),
   c10_default_balance.2.1 "pi-10" (JsNum.num 1200) "U10" "12" c10user 1 12
     (by decide) (Or.inl rfl),
   c10_default_balance.2.2 c10intent c10user 12 rfl (by decide) (by decide)
     (by decide) (Or.inl rfl)⟩

end Backend
